import Mathlib

/-!
Shallow embedding of the ski-area clustering pipeline of
`src/clustering/ArangoGraphClusterer.ts` (openskidata-processor).

Modelling conventions:
* The ArangoDB `objects` collection is a `List MapObject` (`Store`); document
  keys (`_key`) and public ids are `Nat`.
* Geometry is opaque: a GeoJSON value is a constructor tag plus a `Nat`
  handle.  The external geometry collaborators (`bufferGeometry` from
  GeoTransforms, turf `centroid`, `getRunConvention`, `skiAreaStatistics`,
  and the ArangoDB predicates `GEO_INTERSECTS` / `GEO_CONTAINS`) are not part
  of the clusterer's source; they are supplied as a `GeoOracle` parameter.
* The mutable `context.alreadyVisited` array (shared by reference across the
  whole traversal in the TypeScript code) is threaded as explicit state.
* Thrown exceptions become `Except String`; the recoverable
  invalid-polygon query error is the oracle's `invalidGeometry` flag, on
  which the query returns an empty result exactly as the catch block does.
* The recursive flood fill is given a fuel parameter (the TypeScript
  recursion is bounded by the growth of `alreadyVisited`); drivers call it
  with ample fuel, and traversal theorems hold for every fuel value.
* The concurrent batches (`Promise.all` over cursor batches) are modelled as
  sequential folds over the cursor snapshot, the standard sequential
  embedding of the driver's batch loop.
* JavaScript number division `s / t` on the two list lengths is modelled in
  `ℚ`; for `t = 0` both JS (`NaN > 0.5` is false) and `ℚ` (`0 / 0 = 0`)
  make the comparison false, and for `t > 0` both compare the exact ratio.
-/

namespace OSP

/-- Activity enum of `openskidata-format`; only `Downhill` and `Nordic` are
ski-area relevant, remaining activities are collapsed into an opaque tag. -/
inductive Activity where
  | downhill
  | nordic
  | other (tag : Nat)
deriving DecidableEq

/-- `MapObjectType` from `MapObject.ts`. -/
inductive MapObjectType where
  | skiArea
  | lift
  | run
deriving DecidableEq

/-- `SourceType` from `openskidata-format`. -/
inductive SourceType where
  | openstreetmap
  | skimapOrg
deriving DecidableEq

/-- `Status` from `openskidata-format` (only `Operating` is named by the
clusterer). -/
inductive Status where
  | operating
  | other (tag : Nat)
deriving DecidableEq

/-- Opaque GeoJSON geometry: a constructor tag plus an opaque handle that the
geometry oracle interprets. -/
inductive Geometry where
  | point (h : Nat)
  | lineString (h : Nat)
  | polygon (h : Nat)
  | multiPolygon (hs : List Nat)
deriving DecidableEq

/-- A `GeoJSON.Polygon | GeoJSON.MultiPolygon` value (the type of search
areas: `bufferGeometry` results and ski-area search polygons). -/
inductive PolyGeometry where
  | polygon (h : Nat)
  | multiPolygon (hs : List Nat)
deriving DecidableEq

/-- The `Polygon`/`MultiPolygon` view of a geometry, used where the code
checks `geometry.type === "Polygon" || geometry.type === "MultiPolygon"`. -/
def Geometry.asPoly : Geometry → Option PolyGeometry
  | .polygon h => some (.polygon h)
  | .multiPolygon hs => some (.multiPolygon hs)
  | _ => none

/-- The geometry denoted by a `PolyGeometry`. -/
def PolyGeometry.toGeometry : PolyGeometry → Geometry
  | .polygon h => .polygon h
  | .multiPolygon hs => .multiPolygon hs

/-- An entry of `SkiAreaProperties.sources`. -/
structure SkiAreaSource where
  type : SourceType
  id : Nat
deriving DecidableEq

/-- `SkiAreaProperties` (name/website/location handles are opaque `Nat`s). -/
structure SkiAreaProperties where
  id : Nat
  name : Option Nat
  generated : Bool
  activities : List Activity
  status : Status
  sources : List SkiAreaSource
  runConvention : Nat
  website : Option Nat
  location : Option Nat
  statistics : Option Nat
deriving DecidableEq

/-- A document of the `objects` collection (`MapObject` union of
`MapObject.ts`); `properties` is meaningful for ski areas only, like the
schemaless ArangoDB documents. -/
structure MapObject where
  _key : Nat
  id : Nat
  type : MapObjectType
  geometry : Geometry
  activities : List Activity
  skiAreas : List Nat
  isPolygon : Bool
  source : SourceType
  isBasisForNewSkiArea : Bool
  isInSkiAreaPolygon : Bool
  isInSkiAreaSite : Bool
  properties : SkiAreaProperties
deriving DecidableEq

/-- The `objects` collection. -/
abbrev Store := List MapObject

/-- External geometry/statistics collaborators (turf, GeoTransforms,
RunFormatter, SkiAreaStatistics and the ArangoDB geo predicates). -/
structure GeoOracle where
  bufferGeometry : Geometry → ℚ → Option PolyGeometry
  geoIntersects : PolyGeometry → Geometry → Bool
  geoContains : PolyGeometry → Geometry → Bool
  invalidGeometry : PolyGeometry → Bool
  centroid : List Geometry → Option Geometry
  runConvention : Geometry → Nat
  statistics : List MapObject → Nat

/-- `maxDistanceInKilometers = 0.5`. -/
def maxDistanceInKilometers : ℚ := 1 / 2

/-- `allSkiAreaActivities = new Set([Activity.Downhill, Activity.Nordic])`
(JS sets iterate in insertion order). -/
def allSkiAreaActivities : List Activity := [.downhill, .nordic]

/-- `VisitContext` minus `alreadyVisited`: the visited array is mutated in
place through a shared reference in the TypeScript code, so it is threaded
as separate state. -/
structure VisitContext where
  id : Nat
  activities : List Activity
  excludeObjectsAlreadyInSkiAreaPolygon : Bool
  searchPolygon : Option PolyGeometry
deriving DecidableEq

/-- The match argument of `findNearbyObjects`. -/
inductive MatchKind where
  | intersects
  | contains
deriving DecidableEq

/-- JS `Set` built by insertion order: deduplicate keeping first
occurrences. -/
def jsSet {α : Type} [DecidableEq α] (l : List α) : List α :=
  l.foldl (fun acc a => if acc.contains a then acc else acc ++ [a]) []

/-- AQL `APPEND(list, [v], true)`: append-with-uniqueness. -/
def appendUnique (l : List Nat) (v : Nat) : List Nat :=
  if l.contains v then l else l ++ [v]

/-- The AQL filter cascade of `findNearbyObjects` (lines 457-471): geometry
match, not already claiming the id, not already visited, optionally not in
a ski-area polygon, and at least one shared activity. -/
def nearbyFilter (geo : GeoOracle) (store : Store) (area : PolyGeometry)
    (mk : MatchKind) (context : VisitContext) (visited : List Nat) :
    List MapObject :=
  store.filter fun object =>
    (match mk with
      | .intersects => geo.geoIntersects area object.geometry
      | .contains => geo.geoContains area object.geometry) &&
    !(object.skiAreas.contains context.id) &&
    !(visited.contains object._key) &&
    (!context.excludeObjectsAlreadyInSkiAreaPolygon ||
      !object.isInSkiAreaPolygon) &&
    object.activities.any (fun a => context.activities.contains a)

/-- `findNearbyObjects`: the query plus the `alreadyVisited.push` of every
returned key; an invalid-polygon error is recovered by returning an empty
result (lines 478-488). -/
def findNearbyObjects (geo : GeoOracle) (store : Store) (area : PolyGeometry)
    (mk : MatchKind) (context : VisitContext) (visited : List Nat) :
    List MapObject × List Nat :=
  if geo.invalidGeometry area then ([], visited)
  else
    (nearbyFilter geo store area mk context visited,
     visited ++ (nearbyFilter geo store area mk context visited).map
       (·._key))

/-- The context refinement of `visitObject` (line 360-365):
`activities := context.activities ∩ object.activities`. -/
def narrowedContext (context : VisitContext) (object : MapObject) :
    VisitContext :=
  { context with
    activities :=
      context.activities.filter fun a => object.activities.contains a }

/-- `for` loop of `visitPolygon` (lines 339-345): visit each found object and
concatenate the results, via the callback for the recursive `visitObject`. -/
def visitObjectsLoop
    (visit : MapObject → List Nat → List MapObject × List Nat) :
    List MapObject → List MapObject → List Nat → List MapObject × List Nat
  | [], acc, visited => (acc, visited)
  | object :: rest, acc, visited =>
    let (r, visited') := visit object visited
    visitObjectsLoop visit rest (acc ++ r) visited'

/-- `visitPolygon` (lines 324-347), with the recursive `visitObject` supplied
as a callback. -/
def visitPolygonWith (geo : GeoOracle) (store : Store)
    (visit : MapObject → List Nat → List MapObject × List Nat)
    (context : VisitContext) (p : Nat) (visited : List Nat) :
    List MapObject × List Nat :=
  let isInSkiAreaPolygon := context.searchPolygon.isSome
  let (objects, visited₁) :=
    findNearbyObjects geo store (.polygon p)
      (if isInSkiAreaPolygon then .contains else .intersects) context visited
  if isInSkiAreaPolygon then (objects, visited₁)
  else visitObjectsLoop visit objects [] visited₁

/-- `for` loop of the `MultiPolygon` case of `visitObject` (lines 371-380),
with the per-polygon visit supplied as a callback. -/
def visitPolygonsLoop
    (visitP : Nat → List Nat → List MapObject × List Nat) :
    List Nat → List MapObject → List Nat → List MapObject × List Nat
  | [], acc, visited => (acc, visited)
  | p :: rest, acc, visited =>
    let (r, visited') := visitP p visited
    visitPolygonsLoop visitP rest (acc ++ r) visited'

/-- `visitObject` (lines 349-384).  Fuel bounds the recursion depth (the
TypeScript recursion terminates because every recursive visit targets an
object freshly appended to `alreadyVisited`); on exhausted fuel only the
seed object is returned, as in the degenerate-search-area case. -/
def visitObject (geo : GeoOracle) (store : Store) :
    Nat → VisitContext → MapObject → List Nat → List MapObject × List Nat
  | 0, _, object, visited => ([object], visited)
  | fuel + 1, context, object, visited =>
    let searchArea :=
      match context.searchPolygon with
      | some p => some p
      | none => geo.bufferGeometry object.geometry maxDistanceInKilometers
    match searchArea with
    | none => ([object], visited)
    | some area =>
      let objectContext := narrowedContext context object
      let visitP : Nat → List Nat → List MapObject × List Nat :=
        visitPolygonWith geo store
          (visitObject geo store fuel objectContext) objectContext
      match area with
      | .polygon p =>
        let (objs, visited') := visitP p visited
        (object :: objs, visited')
      | .multiPolygon ps =>
        visitPolygonsLoop visitP ps [object] visited

/-! ## Store query adapter -/

/-- Options of `getSkiAreas` (lines 527-531). -/
structure GetSkiAreasOptions where
  onlySource : Option SourceType := none
  onlyPolygons : Bool := false
  onlyInPolygon : Option PolyGeometry := none

/-- `getSkiAreas` (lines 527-567): the AQL filters; an invalid-geometry
error from the `onlyInPolygon` predicate is recovered with an empty
cursor. -/
def getSkiAreas (geo : GeoOracle) (store : Store)
    (options : GetSkiAreasOptions) : List MapObject :=
  if (match options.onlyInPolygon with
      | some poly => geo.invalidGeometry poly
      | none => false) then []
  else
    store.filter fun object =>
      (match options.onlyInPolygon with
        | some poly => geo.geoIntersects poly object.geometry
        | none => true) &&
      object.type = MapObjectType.skiArea &&
      (match options.onlySource with
        | some s => object.source = s
        | none => true) &&
      (!options.onlyPolygons || object.isPolygon)

/-- `markSkiArea` (lines 494-516): for every listed object, clear
`isBasisForNewSkiArea`, OR `isInSkiAreaPolygon`, and `APPEND` the id to
`skiAreas` with uniqueness. -/
def markSkiArea (id : Nat) (isInSkiAreaPolygon : Bool)
    (objects : List MapObject) (store : Store) : Store :=
  let keys := objects.map (·._key)
  store.map fun object =>
    if keys.contains object._key then
      { object with
        isBasisForNewSkiArea := false
        isInSkiAreaPolygon := object.isInSkiAreaPolygon || isInSkiAreaPolygon
        skiAreas := appendUnique object.skiAreas id }
    else object

/-- `nextUnassignedRun` (lines 570-582): one object with
`isBasisForNewSkiArea == true`; throws when its activities are empty. -/
def nextUnassignedRun (store : Store) : Except String (Option MapObject) :=
  match store.find? (·.isBasisForNewSkiArea) with
  | none => .ok none
  | some run =>
    if run.activities.isEmpty then .error "No activities for run"
    else .ok (some run)

/-- `getObjects` (lines 632-642): the members of a ski area, ski areas
excluded. -/
def getObjects (skiAreaID : Nat) (store : Store) : List MapObject :=
  store.filter fun object =>
    object.skiAreas.contains skiAreaID &&
    object.type ≠ MapObjectType.skiArea

/-! ## Phase P0 -/

/-- `removeAmbiguousDuplicateSkiAreas` (lines 93-129): remove each
OpenStreetMap ski-area polygon that contains more than one Skimap.org ski
area. -/
def removeAmbiguousDuplicateSkiAreas (geo : GeoOracle) (store : Store) :
    Except String Store :=
  (getSkiAreas geo store
    { onlyPolygons := true, onlySource := some .openstreetmap }).foldlM
    (fun st skiArea =>
      match skiArea.geometry.asPoly with
      | none =>
        .error "getSkiAreas query should have only returned ski areas with a Polygon geometry."
      | some poly =>
        let otherSkiAreas := getSkiAreas geo st
          { onlySource := some .skimapOrg, onlyInPolygon := some poly }
        if otherSkiAreas.length > 1 then
          .ok (st.filter (·._key ≠ skiArea._key))
        else .ok st)
    store

/-! ## Phases P1-P3: assignObjectsToSkiAreas -/

/-- The flattened option record of `assignObjectsToSkiAreas`
(lines 131-142). -/
structure AssignOptions where
  onlySource : SourceType
  mergeWithOtherSourceIfNearby : Bool := false
  removeIfNoObjectsFound : Bool := false
  removeIfSubstantialNumberOfObjectsInSkiAreaSite : Bool := false
  onlyIfNotAlreadyAssignedToPolygon : Bool := false
  onlyInPolygon : Bool := false

/-- `getSkiAreasToMerge` (lines 386-415). -/
def getSkiAreasToMerge (geo : GeoOracle) (store : Store)
    (skiArea : MapObject) : List MapObject :=
  let maxMergeDistanceInKilometers : ℚ := 1 / 4
  match geo.bufferGeometry skiArea.geometry maxMergeDistanceInKilometers with
  | none => []
  | some buffer =>
    let (nearbyObjects, _) := findNearbyObjects geo store buffer .intersects
      { id := skiArea.id, activities := skiArea.activities,
        excludeObjectsAlreadyInSkiAreaPolygon := false,
        searchPolygon := none } []
    let otherSkiAreaIDs := jsSet (nearbyObjects.flatMap (·.skiAreas))
    let otherSkiAreas := store.filter fun o => otherSkiAreaIDs.contains o.id
    otherSkiAreas.filter fun other => other.source ≠ skiArea.source

/-- `mergeSkiAreas` (lines 417-450): persist the composer's merged ski area
(`MergeSkiAreaObjects.ts` is outside this file and is passed in as the
`merger` parameter, the injected composer), rewrite every reference to a
non-surviving key and remove the non-survivors.  The update fails like the
ArangoDB update when the surviving key does not exist. -/
def mergeSkiAreas (merger : List MapObject → Option MapObject)
    (skiAreas : List MapObject) (store : Store) : Except String Store :=
  let ids := jsSet (skiAreas.map (·._key))
  match merger skiAreas with
  | none => .ok store
  | some merged =>
    if store.any (·._key = merged._key) then
      let store₁ := store.map fun o =>
        if o._key = merged._key then merged else o
      let ids := ids.filter (· ≠ merged._key)
      let store₂ := store₁.map fun o =>
        if o.skiAreas.any (fun k => ids.contains k) then
          { o with
            skiAreas :=
              appendUnique (o.skiAreas.filter fun k => !ids.contains k)
                merged._key }
        else o
      .ok (store₂.filter fun o => !ids.contains o._key)
    else .error "document not found"

/-- Lines 182-186: use the ski area's activities for clustering, or all
ski-area activities when none are known. -/
def activitiesForClustering (skiArea : MapObject) : List Activity :=
  if skiArea.activities.isEmpty then allSkiAreaActivities
  else skiArea.activities

/-- Lines 165-180: the polygon-phase search polygon; a non-polygonal
geometry is a fatal assertion error. -/
def skiAreaSearchPolygon (options : AssignOptions) (skiArea : MapObject) :
    Except String (Option PolyGeometry) :=
  if options.onlyInPolygon then
    match skiArea.geometry.asPoly with
    | some p => .ok (some p)
    | none => .error "Ski area geometry must be a polygon."
  else .ok none

/-- Lines 186-198: the traversal of one ski area.  The seed object carries
the clustering activities (the TypeScript code assigns
`skiArea.activities = activitiesForClustering` before visiting). -/
def traversalMembers (geo : GeoOracle) (store : Store)
    (options : AssignOptions) (skiArea : MapObject)
    (searchPolygon : Option PolyGeometry) : List MapObject :=
  (visitObject geo store (store.length + 1)
    { id := skiArea.properties.id,
      activities := activitiesForClustering skiArea,
      excludeObjectsAlreadyInSkiAreaPolygon :=
        options.onlyIfNotAlreadyAssignedToPolygon,
      searchPolygon := searchPolygon }
    { skiArea with activities := activitiesForClustering skiArea }
    [skiArea._key]).1

/-- Lines 199-203. -/
def removeDueToNoObjects (options : AssignOptions)
    (memberObjects : List MapObject) : Bool :=
  options.removeIfNoObjectsFound &&
  !memberObjects.any (fun object => object.type ≠ MapObjectType.skiArea)

/-- Lines 214-218. -/
def liftsAndRuns (memberObjects : List MapObject) : List MapObject :=
  memberObjects.filter fun object =>
    object.type = MapObjectType.lift || object.type = MapObjectType.run

/-- `liftsAndRunsInSiteRelation.length / liftsAndRuns.length` of line 224,
in `ℚ` via `mkRat` (equal to `(s : ℚ) / (t : ℚ)`, see `siteRatio_eq_div`;
both give the junk value `0` for `0 / 0`, on which the JS comparison
`NaN > 0.5` is false as well). -/
def siteRatio (memberObjects : List MapObject) : ℚ :=
  mkRat ((liftsAndRuns memberObjects).filter (·.isInSkiAreaSite)).length
    ((liftsAndRuns memberObjects).length)

/-- Lines 219-224. -/
def removeDueToSiteRatio (options : AssignOptions)
    (memberObjects : List MapObject) : Bool :=
  options.removeIfSubstantialNumberOfObjectsInSkiAreaSite &&
  decide (siteRatio memberObjects > mkRat 1 2)

/-- Lines 243-265: the activity accumulation run when the ski area had no
known activities, seeded with `new Set(skiArea.properties.activities)`. -/
def accumulatedActivities (skiArea : MapObject)
    (memberObjects : List MapObject) : List Activity :=
  (memberObjects.filter fun object =>
      object.type ≠ MapObjectType.skiArea).foldl
    (fun acc object =>
      object.activities.foldl
        (fun acc a =>
          if allSkiAreaActivities.contains a && !acc.contains a then
            acc ++ [a]
          else acc)
        acc)
    (jsSet skiArea.properties.activities)

/-- Lines 237-265: mark the members and, when the ski area had no known
activities, update its activity sets from the clustered objects. -/
def markAndUpdateActivities (options : AssignOptions)
    (store : Store) (skiArea : MapObject) (memberObjects : List MapObject) :
    Store :=
  let store₁ := markSkiArea skiArea.properties.id options.onlyInPolygon
    memberObjects store
  if skiArea.activities.isEmpty then
    let activities := accumulatedActivities skiArea memberObjects
    store₁.map fun o =>
      if o._key = skiArea._key then
        { o with
          activities := activities
          properties := { o.properties with activities := activities } }
      else o
  else store₁

/-- The per-ski-area body of `assignObjectsToSkiAreas` (lines 150-266). -/
def processSkiArea (geo : GeoOracle)
    (merger : List MapObject → Option MapObject) (options : AssignOptions)
    (store : Store) (skiArea : MapObject) : Except String Store :=
  let skiAreasToMerge := getSkiAreasToMerge geo store skiArea
  if options.mergeWithOtherSourceIfNearby && !skiAreasToMerge.isEmpty then
    mergeSkiAreas merger (skiArea :: skiAreasToMerge) store
  else
    match skiAreaSearchPolygon options skiArea with
    | .error e => .error e
    | .ok searchPolygon =>
      let memberObjects :=
        traversalMembers geo store options skiArea searchPolygon
      if removeDueToNoObjects options memberObjects then
        .ok (store.filter (·._key ≠ skiArea._key))
      else if removeDueToSiteRatio options memberObjects then
        .ok (store.filter (·._key ≠ skiArea._key))
      else
        .ok (markAndUpdateActivities options store skiArea memberObjects)

/-- `assignObjectsToSkiAreas` (lines 131-269): fold the per-ski-area body
over the cursor snapshot. -/
def assignObjectsToSkiAreas (geo : GeoOracle)
    (merger : List MapObject → Option MapObject) (options : AssignOptions)
    (store : Store) : Except String Store :=
  (getSkiAreas geo store
    { onlyPolygons := options.onlyInPolygon,
      onlySource := some options.onlySource }).foldlM
    (fun st skiArea => processSkiArea geo merger options st skiArea) store

/-! ## Phase P4 -/

/-- The `DraftSkiArea` literal of `createGeneratedSkiArea`
(lines 599-620). -/
def draftSkiArea (geo : GeoOracle) (id : Nat) (activities : List Activity)
    (geometry : Geometry) : MapObject :=
  { _key := id
    id := id
    type := .skiArea
    skiAreas := [id]
    activities := activities
    geometry := geometry
    isPolygon := true
    source := .openstreetmap
    isBasisForNewSkiArea := false
    isInSkiAreaPolygon := false
    isInSkiAreaSite := false
    properties :=
      { id := id
        name := none
        generated := true
        activities := activities
        status := .operating
        sources := []
        runConvention := geo.runConvention geometry
        website := none
        location := none
        statistics := none } }

/-- `createGeneratedSkiArea` (lines 584-630): compute the member centroid
(failure is thrown), save the draft and mark the members. -/
def createGeneratedSkiArea (geo : GeoOracle) (id : Nat)
    (activities : List Activity) (memberObjects : List MapObject)
    (store : Store) : Except String Store :=
  match geo.centroid (memberObjects.map (·.geometry)) with
  | none => .error "No centroid point could be found."
  | some geometry =>
    let store₁ := store ++ [draftSkiArea geo id activities geometry]
    .ok (markSkiArea id false memberObjects store₁)

/-- Line 296-311: the Downhill-requires-a-lift rule applies? -/
def downhillDropApplies (activities : List Activity)
    (memberObjects : List MapObject) : Bool :=
  activities.contains .downhill &&
  !memberObjects.any (fun object => object.type = MapObjectType.lift)

/-- Line 284-286: `activities = unassignedRun.activities.filter(a =>
allSkiAreaActivities.has(a))`. -/
def synthesisSeedActivities (run : MapObject) : List Activity :=
  run.activities.filter fun a => allSkiAreaActivities.contains a

/-- Lines 287-294: the traversal of `generateSkiAreaForRun`. -/
def synthesisTraversal (geo : GeoOracle) (newSkiAreaID : Nat)
    (run : MapObject) (store : Store) : List MapObject :=
  (visitObject geo store (store.length + 1)
    { id := newSkiAreaID, activities := synthesisSeedActivities run,
      excludeObjectsAlreadyInSkiAreaPolygon := false, searchPolygon := none }
    run [run._key]).1

/-- Lines 283-311 of `generateSkiAreaForRun`: the activity filter, the
traversal and the Downhill-requires-a-lift adjustment, producing the
activities and members a generated ski area would be created from. -/
def synthesisActivitiesAndMembers (geo : GeoOracle) (newSkiAreaID : Nat)
    (run : MapObject) (store : Store) : List Activity × List MapObject :=
  if downhillDropApplies (synthesisSeedActivities run)
      (synthesisTraversal geo newSkiAreaID run store) then
    ((synthesisSeedActivities run).filter (fun a => a ≠ Activity.downhill),
     (synthesisTraversal geo newSkiAreaID run store).filter fun object =>
       object.activities.any fun a =>
         a ≠ Activity.downhill && allSkiAreaActivities.contains a)
  else (synthesisSeedActivities run,
    synthesisTraversal geo newSkiAreaID run store)

/-- `generateSkiAreaForRun` (lines 282-322). -/
def generateSkiAreaForRun (geo : GeoOracle) (newSkiAreaID : Nat)
    (run : MapObject) (store : Store) : Except String Store :=
  let (activities, memberObjects) :=
    synthesisActivitiesAndMembers geo newSkiAreaID run store
  if activities.isEmpty || memberObjects.isEmpty then
    .ok (store.map fun o =>
      if o._key = run._key then { o with isBasisForNewSkiArea := false }
      else o)
  else createGeneratedSkiArea geo newSkiAreaID activities memberObjects store

/-- A fresh document key (the `uuid()` of line 283): larger than every key,
id and reference in the store. -/
def freshKey (store : Store) : Nat :=
  (store.foldl
    (fun m o => max m (max o._key (max o.id (o.skiAreas.foldl max 0)))) 0) + 1

/-- `generateSkiAreasForUnassignedObjects` (lines 271-280): loop over
`nextUnassignedRun`; a per-run failure is logged and skipped, an error from
`nextUnassignedRun` itself propagates.  Fuel bounds the loop. -/
def generateSkiAreasForUnassignedObjects (geo : GeoOracle) :
    Nat → Store → Except String Store
  | 0, store => .ok store
  | fuel + 1, store =>
    match nextUnassignedRun store with
    | .error e => .error e
    | .ok none => .ok store
    | .ok (some run) =>
      match generateSkiAreaForRun geo (freshKey store) run store with
      | .error _ => generateSkiAreasForUnassignedObjects geo fuel store
      | .ok store' => generateSkiAreasForUnassignedObjects geo fuel store'

/-! ## Phase P5 -/

/-- The augmented ski-area value of
`augmentSkiAreaBasedOnAssignedLiftsAndRuns` (lines 684-706), with the
already-resolved member centroid: statistics, centroid geometry,
`isPolygon := false`, run convention, and the optional geocoded location
(geocoder failure leaves the location unchanged). -/
def augmentedSkiArea (geo : GeoOracle)
    (geocoder : Option (Geometry → Option Nat)) (skiArea : MapObject)
    (memberObjects : List MapObject) (newGeometry : Geometry) : MapObject :=
  { skiArea with
    geometry := newGeometry
    isPolygon := false
    properties :=
      { skiArea.properties with
        statistics := some (geo.statistics memberObjects)
        runConvention := geo.runConvention newGeometry
        location :=
          match geocoder with
          | none => skiArea.properties.location
          | some geocode =>
            match geocode newGeometry with
            | some location => some location
            | none => skiArea.properties.location } }

/-- `augmentSkiAreaBasedOnAssignedLiftsAndRuns` (lines 664-709): remove an
orphan ski area without a Skimap.org source, otherwise augment it and write
it back under its `id` used as document key (the ArangoDB update fails when
that document does not exist). -/
def augmentSkiAreaBasedOnAssignedLiftsAndRuns (geo : GeoOracle)
    (geocoder : Option (Geometry → Option Nat)) (skiArea : MapObject)
    (memberObjects : List MapObject) (store : Store) :
    Except String Store :=
  let noSkimapOrgSource :=
    !skiArea.properties.sources.any (·.type = SourceType.skimapOrg)
  if memberObjects.isEmpty && noSkimapOrgSource then
    .ok (store.filter (·._key ≠ skiArea._key))
  else
    match (if memberObjects.isEmpty then some skiArea.geometry
           else geo.centroid (memberObjects.map (·.geometry))) with
    | none => .error "No centroid point could be found."
    | some newGeometry =>
      if store.any (·._key = skiArea.id) then
        .ok (store.map fun o =>
          if o._key = skiArea.id then
            augmentedSkiArea geo geocoder skiArea memberObjects newGeometry
          else o)
      else .error "document not found"

/-- `augmentSkiAreasBasedOnAssignedLiftsAndRuns` (lines 645-662). -/
def augmentSkiAreasBasedOnAssignedLiftsAndRuns (geo : GeoOracle)
    (geocoder : Option (Geometry → Option Nat)) (store : Store) :
    Except String Store :=
  (getSkiAreas geo store {}).foldlM
    (fun st skiArea =>
      augmentSkiAreaBasedOnAssignedLiftsAndRuns geo geocoder skiArea
        (getObjects skiArea.id st) st)
    store

/-! ## The pipeline -/

/-- P1 options (lines 57-64). -/
def p1Options : AssignOptions :=
  { onlySource := .openstreetmap
    removeIfNoObjectsFound := true
    removeIfSubstantialNumberOfObjectsInSkiAreaSite := true
    onlyInPolygon := true }

/-- P2 options (lines 67-70). -/
def p2Options : AssignOptions :=
  { onlySource := .openstreetmap
    onlyIfNotAlreadyAssignedToPolygon := true }

/-- P3 options (lines 75-81). -/
def p3Options : AssignOptions :=
  { onlySource := .skimapOrg
    mergeWithOtherSourceIfNearby := true
    onlyIfNotAlreadyAssignedToPolygon := true }

/-- `clusterArangoGraph` (lines 47-86): the six phases in order. -/
def clusterArangoGraph (geo : GeoOracle)
    (merger : List MapObject → Option MapObject)
    (geocoder : Option (Geometry → Option Nat)) (p4fuel : Nat)
    (store : Store) : Except String Store := do
  let store ← removeAmbiguousDuplicateSkiAreas geo store
  let store ← assignObjectsToSkiAreas geo merger p1Options store
  let store ← assignObjectsToSkiAreas geo merger p2Options store
  let store ← assignObjectsToSkiAreas geo merger p3Options store
  let store ← generateSkiAreasForUnassignedObjects geo p4fuel store
  augmentSkiAreasBasedOnAssignedLiftsAndRuns geo geocoder store

/-! ## Concrete instances

Small stores and geometry oracles used to witness or refute the claims.
Geometry handles encode concrete configurations described at each
fixture. -/

/-- Default ski-area properties of an ingested object. -/
def defaultProperties (key : Nat) (source : SourceType) : SkiAreaProperties :=
  { id := key, name := none, generated := false, activities := [],
    status := .operating, sources := [{ type := source, id := key }],
    runConvention := 0, website := none, location := none, statistics := none }

/-- An ingested map object with the given key, type, geometry and
activities; everything else as ingestion leaves it. -/
def mkObject (key : Nat) (type : MapObjectType) (geometry : Geometry)
    (activities : List Activity) : MapObject :=
  { _key := key, id := key, type := type, geometry := geometry,
    activities := activities, skiAreas := [], isPolygon := false,
    source := .openstreetmap, isBasisForNewSkiArea := false,
    isInSkiAreaPolygon := false, isInSkiAreaSite := false,
    properties := { defaultProperties key .openstreetmap with
      activities := activities } }

/-- A merge composer that never merges (no Skimap.org ski areas occur in the
concrete stores below, so it is never consulted). -/
def noMerger : List MapObject → Option MapObject := fun _ => none

/-- Fixture A: an OpenStreetMap ski-area polygon (handle 100) with a single
downhill run (handle 101) inside it. -/
def skiAreaA : MapObject :=
  { mkObject 20 .skiArea (.polygon 100) [.downhill] with isPolygon := true }

/-- The run inside fixture A's polygon. -/
def runA : MapObject := mkObject 21 .run (.lineString 101) [.downhill]

/-- Oracle for fixture A: polygon 100 contains the run and the ski area's
own outline; nothing else holds. -/
def geoA : GeoOracle :=
  { bufferGeometry := fun _ _ => none
    geoIntersects := fun _ _ => false
    geoContains := fun area g =>
      area = .polygon 100 && (g = .lineString 101 || g = .polygon 100)
    invalidGeometry := fun _ => false
    centroid := fun _ => some (.point 50)
    runConvention := fun _ => 0
    statistics := fun _ => 0 }

/-- Store of fixture A. -/
def storeA : Store := [skiAreaA, runA]

/-- Decidable equality of pipeline results. -/
instance exceptDecEq {e a : Type} [DecidableEq e] [DecidableEq a] :
    DecidableEq (Except e a)
  | .ok x, .ok y =>
    if h : x = y then .isTrue (by rw [h])
    else .isFalse (by intro hh; cases hh; exact h rfl)
  | .ok _, .error _ => .isFalse (by intro hh; cases hh)
  | .error _, .ok _ => .isFalse (by intro hh; cases hh)
  | .error x, .error y =>
    if h : x = y then .isTrue (by rw [h])
    else .isFalse (by intro hh; cases hh; exact h rfl)

/-- Fixture D (dangling reference): OpenStreetMap ski area D1 at a point
(handle 10), OpenStreetMap ski area D2 at a point 0.3 km away (handle 11)
with a nordic run (handle 12) 0.3 km from D2 and 0.8 km from D1.  D1 has no
lift or run of its own. -/
def skiAreaD1 : MapObject := mkObject 1 .skiArea (.point 10) [.downhill]

/-- Ski area D2 of fixture D. -/
def skiAreaD2 : MapObject :=
  mkObject 2 .skiArea (.point 11) [.downhill, .nordic]

/-- The nordic run of fixture D, near D2 only. -/
def runD : MapObject :=
  { mkObject 3 .run (.lineString 12) [.nordic] with
    isBasisForNewSkiArea := true }

/-- Oracle of fixture D: buffering a geometry with handle `h` yields polygon
`h + 100`; the 0.5 km buffers of D1 and D2 reach each other, D2's buffer
and the run's buffer reach each other, D1's buffer does not reach the
run. -/
def geoD : GeoOracle :=
  { bufferGeometry := fun g _ =>
      match g with
      | .point h => some (.polygon (h + 100))
      | .lineString h => some (.polygon (h + 100))
      | _ => none
    geoIntersects := fun area g =>
      match area with
      | .polygon p =>
        [(110, Geometry.point 10), (110, .point 11),
         (111, .point 10), (111, .point 11), (111, .lineString 12),
         (112, .lineString 12), (112, .point 11)].contains (p, g)
      | _ => false
    geoContains := fun _ _ => false
    invalidGeometry := fun _ => false
    centroid := fun _ => some (.point 90)
    runConvention := fun _ => 0
    statistics := fun l => l.length }

/-- Store of fixture D. -/
def storeD : Store := [skiAreaD1, skiAreaD2, runD]

/-- Fixture I (idempotence): an OpenStreetMap ski area at a point on a
0.7 km-radius arc of five downhill runs (handles 21-25, chained by 0.43 km
hops), plus a lift (handle 26) at the arc's centre, 0.7 km from every run
but only 0.45 km from the centroid of the five runs (handle 35 = point
`30 + 5`, the oracle's centroid of a five-element collection). -/
def skiAreaI : MapObject := mkObject 1 .skiArea (.point 10) [.downhill]

/-- Run 1 of fixture I. -/
def runI1 : MapObject :=
  { mkObject 2 .run (.lineString 21) [.downhill] with
    isBasisForNewSkiArea := true }

/-- Run 2 of fixture I. -/
def runI2 : MapObject :=
  { mkObject 3 .run (.lineString 22) [.downhill] with
    isBasisForNewSkiArea := true }

/-- Run 3 of fixture I. -/
def runI3 : MapObject :=
  { mkObject 4 .run (.lineString 23) [.downhill] with
    isBasisForNewSkiArea := true }

/-- Run 4 of fixture I. -/
def runI4 : MapObject :=
  { mkObject 5 .run (.lineString 24) [.downhill] with
    isBasisForNewSkiArea := true }

/-- Run 5 of fixture I. -/
def runI5 : MapObject :=
  { mkObject 6 .run (.lineString 25) [.downhill] with
    isBasisForNewSkiArea := true }

/-- The lift at the centre of fixture I's arc. -/
def liftI : MapObject := mkObject 7 .lift (.lineString 26) [.downhill]

/-- Oracle of fixture I: buffers are `h + 100` polygons, adjacency along
the arc chain, and the centroid point 35 within 0.5 km of the central lift;
the centroid of a geometry list is the point `30 + length`, so the
five-run centroid (point 35) differs from the six-member centroid (point
36) recomputed after the lift joins. -/
def geoI : GeoOracle :=
  { bufferGeometry := fun g _ =>
      match g with
      | .point h => some (.polygon (h + 100))
      | .lineString h => some (.polygon (h + 100))
      | _ => none
    geoIntersects := fun area g =>
      match area with
      | .polygon p =>
        [(110, Geometry.point 10), (110, .lineString 21),
         (121, .lineString 21), (121, .point 10), (121, .lineString 22),
         (122, .lineString 22), (122, .lineString 21), (122, .lineString 23),
         (123, .lineString 23), (123, .lineString 22), (123, .lineString 24),
         (124, .lineString 24), (124, .lineString 23), (124, .lineString 25),
         (125, .lineString 25), (125, .lineString 24),
         (126, .lineString 26), (126, .point 35),
         (135, .point 35), (135, .lineString 26)].contains (p, g)
      | _ => false
    geoContains := fun _ _ => false
    invalidGeometry := fun _ => false
    centroid := fun gs => some (.point (30 + gs.length))
    runConvention := fun _ => 0
    statistics := fun l => l.length }

/-- Store of fixture I. -/
def storeI : Store :=
  [skiAreaI, runI1, runI2, runI3, runI4, runI5, liftI]

/-- The pipeline specialised to fixture I's collaborators. -/
def runPipelineI (s : Store) : Except String Store :=
  clusterArangoGraph geoI noMerger none 9 s

/-- Fixture E: a single unassigned run with an empty activity set. -/
def runE : MapObject :=
  { mkObject 30 .run (.lineString 1) [] with isBasisForNewSkiArea := true }

/-- Store of fixture E. -/
def storeE : Store := [runE]

/-- Fixture F: a single unassigned downhill run with no lift anywhere. -/
def runF : MapObject :=
  { mkObject 40 .run (.lineString 2) [.downhill] with
    isBasisForNewSkiArea := true }

/-- Store of fixture F. -/
def storeF : Store := [runF]

/-- Oracle of fixtures E and F: degenerate geometry, no results. -/
def geoF : GeoOracle :=
  { bufferGeometry := fun _ _ => none
    geoIntersects := fun _ _ => false
    geoContains := fun _ _ => false
    invalidGeometry := fun _ => false
    centroid := fun _ => some (.point 90)
    runConvention := fun _ => 0
    statistics := fun l => l.length }

/-- Fixture G: a nordic run already referencing ski-area id 60, used to
witness the P5 augmentation theorem (the store holds no ski area, so the
augmentation pass is the identity). -/
def runG : MapObject :=
  { mkObject 60 .run (.lineString 3) [.nordic] with skiAreas := [60] }

/-- Store of fixture G. -/
def storeG : Store := [runG]

/-- Fixture H: an OpenStreetMap polygon ski area (key = id = 80, still
`isPolygon = true`) with one downhill run already assigned to it, used to
exercise the P5 augmentation non-vacuously. -/
def skiAreaH : MapObject :=
  { mkObject 80 .skiArea (.polygon 500) [.downhill] with isPolygon := true }

/-- The run of fixture H, already referencing ski area 80. -/
def runH : MapObject :=
  { mkObject 81 .run (.lineString 501) [.downhill] with skiAreas := [80] }

/-- Store of fixture H. -/
def storeH : Store := [skiAreaH, runH]

/-- Fixture H after the P5 pass: ski area 80 augmented (centroid geometry,
`isPolygon := false`), the run untouched. -/
def storeHAfterP5 : Store :=
  storeH.map fun o =>
    if o._key = skiAreaH.id then
      augmentedSkiArea geoF none skiAreaH (getObjects skiAreaH.id storeH)
        (Geometry.point 90)
    else o

/-! ## Helper lemmas -/

theorem mkRat_nat_eq_div (s t : Nat) :
    (mkRat s t : ℚ) = (s : ℚ) / (t : ℚ) := by
  rw [Rat.mkRat_eq_divInt, Rat.divInt_eq_div]
  push_cast
  ring

/-- `siteRatio` is the rational division of the two member counts. -/
theorem siteRatio_eq_div (memberObjects : List MapObject) :
    siteRatio memberObjects =
      ((((liftsAndRuns memberObjects).filter
          (·.isInSkiAreaSite)).length : ℚ) /
        ((liftsAndRuns memberObjects).length : ℚ)) := by
  rw [siteRatio, mkRat_nat_eq_div]

theorem mkRat_half : (mkRat 1 2 : ℚ) = 1 / 2 := by
  rw [Rat.mkRat_eq_divInt, Rat.divInt_eq_div]
  norm_num

/-- The ratio test `s / t > 0.5` holds exactly when `t` is positive and
`t < 2 * s`. -/
theorem mkRat_gt_half_iff (s t : Nat) :
    (mkRat s t > mkRat 1 2) ↔ (0 < t ∧ t < 2 * s) := by
  rw [mkRat_nat_eq_div, mkRat_half]
  rcases Nat.eq_zero_or_pos t with ht | ht
  · subst ht
    norm_num
  · rw [gt_iff_lt, div_lt_div_iff₀ (by norm_num) (by exact_mod_cast ht)]
    constructor
    · intro h
      refine ⟨ht, ?_⟩
      have h2 : (t : ℚ) < 2 * s := by linarith
      exact_mod_cast h2
    · intro h
      have h2 : (t : ℚ) < 2 * s := by exact_mod_cast h.2
      linarith

/-- The loop of `visitPolygon` only appends to its accumulator. -/
theorem visitObjectsLoop_append
    (visit : MapObject → List Nat → List MapObject × List Nat) :
    ∀ (objs : List MapObject) (acc : List MapObject) (visited : List Nat),
      ∃ extra visited',
        visitObjectsLoop visit objs acc visited = (acc ++ extra, visited')
  | [], acc, visited => ⟨[], visited, by simp [visitObjectsLoop]⟩
  | o :: rest, acc, visited => by
    simp only [visitObjectsLoop]
    obtain ⟨extra, visited', h⟩ :=
      visitObjectsLoop_append visit rest (acc ++ (visit o visited).1)
        (visit o visited).2
    exact ⟨(visit o visited).1 ++ extra, visited', by simp [h]⟩

/-- The multipolygon loop of `visitObject` only appends to its
accumulator. -/
theorem visitPolygonsLoop_append
    (visitP : Nat → List Nat → List MapObject × List Nat) :
    ∀ (ps : List Nat) (acc : List MapObject) (visited : List Nat),
      ∃ extra visited',
        visitPolygonsLoop visitP ps acc visited = (acc ++ extra, visited')
  | [], acc, visited => ⟨[], visited, by simp [visitPolygonsLoop]⟩
  | p :: rest, acc, visited => by
    simp only [visitPolygonsLoop]
    obtain ⟨extra, visited', h⟩ :=
      visitPolygonsLoop_append visitP rest (acc ++ (visitP p visited).1)
        (visitP p visited).2
    exact ⟨(visitP p visited).1 ++ extra, visited', by simp [h]⟩

/-- Every traversal result starts with the seed object. -/
theorem visitObject_cons (geo : GeoOracle) (store : Store) (fuel : Nat)
    (context : VisitContext) (object : MapObject) (visited : List Nat) :
    ∃ rest visited',
      visitObject geo store fuel context object visited =
        (object :: rest, visited') := by
  cases fuel with
  | zero => exact ⟨[], visited, rfl⟩
  | succ fuel =>
    simp only [visitObject]
    rcases hsp : context.searchPolygon with _ | p
    · rcases hbuf : geo.bufferGeometry object.geometry
        maxDistanceInKilometers with _ | area
      · exact ⟨[], visited, rfl⟩
      · cases area with
        | polygon p => exact ⟨_, _, rfl⟩
        | multiPolygon ps =>
          obtain ⟨extra, visited', h⟩ := visitPolygonsLoop_append _ ps [object]
            visited
          exact ⟨extra, visited', h⟩
    · cases p with
      | polygon q => exact ⟨_, _, rfl⟩
      | multiPolygon qs =>
        obtain ⟨extra, visited', h⟩ := visitPolygonsLoop_append _ qs [object]
          visited
        exact ⟨extra, visited', h⟩

/-- `processSkiArea` without merging and with a resolved search polygon is
the removal cascade followed by marking. -/
theorem processSkiArea_eq_of_noMerge (geo : GeoOracle)
    (merger : List MapObject → Option MapObject) (options : AssignOptions)
    (store : Store) (skiArea : MapObject) (sp : Option PolyGeometry)
    (hmerge : options.mergeWithOtherSourceIfNearby = false)
    (hpoly : skiAreaSearchPolygon options skiArea = .ok sp) :
    processSkiArea geo merger options store skiArea =
      (if removeDueToNoObjects options
          (traversalMembers geo store options skiArea sp) then
        .ok (store.filter (·._key ≠ skiArea._key))
      else if removeDueToSiteRatio options
          (traversalMembers geo store options skiArea sp) then
        .ok (store.filter (·._key ≠ skiArea._key))
      else
        .ok (markAndUpdateActivities options store skiArea
          (traversalMembers geo store options skiArea sp))) := by
  unfold processSkiArea
  rw [hmerge, hpoly]
  simp



/-! ## C1 -/

/-- C1: In phase P1 the removal rules apply in order: a crowdsourced
polygon ski area is removed when the traversal found no non-ski-area
members; otherwise it is removed when the lift/run site ratio exceeds 0.5,
which requires a positive lift/run count; otherwise it is kept and
`markSkiArea` (with `isInPolygon = true`, via `markAndUpdateActivities`) is
invoked.  A ski area with zero lift/run members is never removed by the
site-ratio rule. -/
theorem c1_p1_removal_rules (geo : GeoOracle)
    (merger : List MapObject → Option MapObject) (store : Store)
    (skiArea : MapObject) (sp : Option PolyGeometry)
    (members : List MapObject)
    (hpoly : skiAreaSearchPolygon p1Options skiArea = .ok sp)
    (hm : members = traversalMembers geo store p1Options skiArea sp) :
    (removeDueToNoObjects p1Options members = true →
      processSkiArea geo merger p1Options store skiArea =
        .ok (store.filter (·._key ≠ skiArea._key))) ∧
    (removeDueToNoObjects p1Options members = false →
      removeDueToSiteRatio p1Options members = true →
      processSkiArea geo merger p1Options store skiArea =
        .ok (store.filter (·._key ≠ skiArea._key))) ∧
    (removeDueToNoObjects p1Options members = false →
      removeDueToSiteRatio p1Options members = false →
      processSkiArea geo merger p1Options store skiArea =
        .ok (markAndUpdateActivities p1Options store skiArea members)) ∧
    (removeDueToSiteRatio p1Options members = true ↔
      0 < (liftsAndRuns members).length ∧
      (liftsAndRuns members).length <
        2 * ((liftsAndRuns members).filter (·.isInSkiAreaSite)).length) ∧
    ((liftsAndRuns members).length = 0 →
      removeDueToSiteRatio p1Options members = false) ∧
    p1Options.onlyInPolygon = true := by
  subst hm
  have hP := processSkiArea_eq_of_noMerge geo merger p1Options store skiArea
    sp rfl hpoly
  have hiff : removeDueToSiteRatio p1Options
      (traversalMembers geo store p1Options skiArea sp) = true ↔
      0 < (liftsAndRuns (traversalMembers geo store p1Options skiArea
        sp)).length ∧
      (liftsAndRuns (traversalMembers geo store p1Options skiArea
        sp)).length <
        2 * ((liftsAndRuns (traversalMembers geo store p1Options skiArea
          sp)).filter (·.isInSkiAreaSite)).length := by
    rw [removeDueToSiteRatio, siteRatio]
    show (true && _) = true ↔ _
    rw [Bool.true_and, decide_eq_true_iff]
    exact mkRat_gt_half_iff _ _
  refine ⟨?_, ?_, ?_, hiff, ?_, rfl⟩
  · intro h1
    rw [hP, h1]
    simp
  · intro h1 h2
    rw [hP, h1, h2]
    simp
  · intro h1 h2
    rw [hP, h1, h2]
    simp
  · intro h0
    cases hval : removeDueToSiteRatio p1Options
        (traversalMembers geo store p1Options skiArea sp) with
    | false => rfl
    | true =>
      obtain ⟨hpos, _⟩ := hiff.1 hval
      omega

/-- Witness for C1: fixture A's polygon ski area is kept and marked. -/
theorem c1_p1_removal_rules_witness :
    processSkiArea geoA noMerger p1Options storeA skiAreaA =
      .ok (markAndUpdateActivities p1Options storeA skiAreaA
        (traversalMembers geoA storeA p1Options skiAreaA
          (some (.polygon 100)))) :=
  (c1_p1_removal_rules geoA noMerger storeA skiAreaA (some (.polygon 100))
    (traversalMembers geoA storeA p1Options skiAreaA (some (.polygon 100)))
    (by decide) rfl).2.2.1 (by decide) (by decide)



theorem appendUnique_contains (l : List Nat) (v : Nat) :
    (appendUnique l v).contains v = true := by
  unfold appendUnique
  cases h : l.contains v with
  | true => simpa using h
  | false => simp

theorem markSkiArea_mem (id : Nat) (inPoly : Bool)
    (objects : List MapObject) (store : Store) (o : MapObject)
    (ho : o ∈ store) (hk : ((objects.map (·._key)).contains o._key) = true) :
    { o with
      isBasisForNewSkiArea := false
      isInSkiAreaPolygon := o.isInSkiAreaPolygon || inPoly
      skiAreas := appendUnique o.skiAreas id } ∈
        markSkiArea id inPoly objects store := by
  unfold markSkiArea
  refine List.mem_map.2 ⟨o, ho, ?_⟩
  simp only [hk]
  simp

theorem markAndUpdateActivities_mem (options : AssignOptions) (store : Store)
    (skiArea : MapObject) (members : List MapObject) (o : MapObject)
    (ho : o ∈ store) (hk : ((members.map (·._key)).contains o._key) = true) :
    ∃ o' ∈ markAndUpdateActivities options store skiArea members,
      o'._key = o._key ∧ o'.type = o.type ∧
      o'.skiAreas.contains skiArea.properties.id = true := by
  have hmark := markSkiArea_mem skiArea.properties.id options.onlyInPolygon
    members store o ho hk
  simp only [markAndUpdateActivities]
  by_cases hempty : skiArea.activities.isEmpty = true
  · rw [if_pos hempty]
    refine ⟨_, List.mem_map.2 ⟨_, hmark, rfl⟩, ?_⟩
    by_cases hkey : ({ o with
        isBasisForNewSkiArea := false
        isInSkiAreaPolygon := o.isInSkiAreaPolygon || options.onlyInPolygon
        skiAreas := appendUnique o.skiAreas skiArea.properties.id } :
          MapObject)._key = skiArea._key
    · rw [if_pos hkey]
      exact ⟨rfl, rfl, appendUnique_contains _ _⟩
    · rw [if_neg hkey]
      exact ⟨rfl, rfl, appendUnique_contains _ _⟩
  · rw [if_neg hempty]
    exact ⟨_, hmark, rfl, rfl, appendUnique_contains _ _⟩



/-- C2 counterexample. -/
theorem c2_counterexample :
    storeA.all (fun o => !o.skiAreas.contains 20) = true ∧
    (match processSkiArea geoA noMerger p1Options storeA skiAreaA with
      | .ok s => s.any fun o =>
          o.type = MapObjectType.skiArea && o.skiAreas.contains 20
      | .error _ => false) = true := by
  constructor <;> decide

/-- C2 amended. -/
theorem c2_members_include_ski_areas (geo : GeoOracle)
    (merger : List MapObject → Option MapObject) (store : Store)
    (skiArea : MapObject) (sp : Option PolyGeometry)
    (hpoly : skiAreaSearchPolygon p1Options skiArea = .ok sp)
    (h1 : removeDueToNoObjects p1Options
      (traversalMembers geo store p1Options skiArea sp) = false)
    (h2 : removeDueToSiteRatio p1Options
      (traversalMembers geo store p1Options skiArea sp) = false) :
    ∃ rest,
      traversalMembers geo store p1Options skiArea sp =
        { skiArea with activities := activitiesForClustering skiArea } ::
          rest ∧
      processSkiArea geo merger p1Options store skiArea =
        .ok (markAndUpdateActivities p1Options store skiArea
          (traversalMembers geo store p1Options skiArea sp)) ∧
      ∀ o ∈ store,
        o._key = skiArea._key →
        ∃ o' ∈ markAndUpdateActivities p1Options store skiArea
            (traversalMembers geo store p1Options skiArea sp),
          o'._key = o._key ∧ o'.type = o.type ∧
          o'.skiAreas.contains skiArea.properties.id = true := by
  obtain ⟨rest, visited', hcons⟩ := visitObject_cons geo store
    (store.length + 1)
    { id := skiArea.properties.id,
      activities := activitiesForClustering skiArea,
      excludeObjectsAlreadyInSkiAreaPolygon :=
        p1Options.onlyIfNotAlreadyAssignedToPolygon,
      searchPolygon := sp }
    { skiArea with activities := activitiesForClustering skiArea }
    [skiArea._key]
  have hmembers : traversalMembers geo store p1Options skiArea sp =
      { skiArea with activities := activitiesForClustering skiArea } ::
        rest := by
    unfold traversalMembers
    rw [hcons]
  refine ⟨rest, hmembers, ?_, ?_⟩
  · rw [processSkiArea_eq_of_noMerge geo merger p1Options store skiArea sp
      rfl hpoly, h1, h2]
    simp
  · intro o ho hkey
    refine markAndUpdateActivities_mem p1Options store skiArea _ o ho ?_
    rw [hmembers]
    simp [hkey]

/-- Witness for C2's amended statement at fixture A. -/
theorem c2_members_include_ski_areas_witness :
    ∃ rest,
      traversalMembers geoA storeA p1Options skiAreaA
          (some (.polygon 100)) =
        { skiAreaA with activities := activitiesForClustering skiAreaA } ::
          rest ∧
      processSkiArea geoA noMerger p1Options storeA skiAreaA =
        .ok (markAndUpdateActivities p1Options storeA skiAreaA
          (traversalMembers geoA storeA p1Options skiAreaA
            (some (.polygon 100)))) ∧
      ∀ o ∈ storeA,
        o._key = skiAreaA._key →
        ∃ o' ∈ markAndUpdateActivities p1Options storeA skiAreaA
            (traversalMembers geoA storeA p1Options skiAreaA
              (some (.polygon 100))),
          o'._key = o._key ∧ o'.type = o.type ∧
          o'.skiAreas.contains skiAreaA.properties.id = true :=
  c2_members_include_ski_areas geoA noMerger storeA skiAreaA
    (some (.polygon 100)) (by decide) (by decide) (by decide)



/-! ## C3 -/

/-- C3: generated-ski-area synthesis invariants: activities stay non-empty
and ski-area relevant (Downhill/Nordic); Downhill among the final
activities implies a lift member; after a Downhill drop every retained
member has another ski-area activity; and when activities or members come
out empty no ski area is created and the seed run's `isBasisForNewSkiArea`
is cleared. -/
theorem c3_generated_invariants (geo : GeoOracle) (newSkiAreaID : Nat)
    (run : MapObject) (store : Store) (acts : List Activity)
    (members : List MapObject)
    (hsynth : synthesisActivitiesAndMembers geo newSkiAreaID run store =
      (acts, members)) :
    (∀ a ∈ acts, a ∈ allSkiAreaActivities) ∧
    (Activity.downhill ∈ acts →
      ∃ o ∈ members, o.type = MapObjectType.lift) ∧
    (Activity.downhill ∈ synthesisSeedActivities run →
      Activity.downhill ∉ acts →
      ∀ o ∈ members, ∃ a ∈ o.activities,
        a ≠ Activity.downhill ∧ a ∈ allSkiAreaActivities) ∧
    ((acts.isEmpty || members.isEmpty) = true →
      generateSkiAreaForRun geo newSkiAreaID run store =
        .ok (store.map fun o =>
          if o._key = run._key then { o with isBasisForNewSkiArea := false }
          else o)) ∧
    ((acts.isEmpty || members.isEmpty) = false →
      acts ≠ [] ∧ members ≠ [] ∧
      generateSkiAreaForRun geo newSkiAreaID run store =
        createGeneratedSkiArea geo newSkiAreaID acts members store ∧
      ∀ c, geo.centroid (members.map (·.geometry)) = some c →
        generateSkiAreaForRun geo newSkiAreaID run store =
          .ok (markSkiArea newSkiAreaID false members
            (store ++ [draftSkiArea geo newSkiAreaID acts c])) ∧
        (draftSkiArea geo newSkiAreaID acts c).properties.generated = true ∧
        (draftSkiArea geo newSkiAreaID acts c).activities = acts) := by
  have hgen : generateSkiAreaForRun geo newSkiAreaID run store =
      (if (acts.isEmpty || members.isEmpty) = true then
        .ok (store.map fun o =>
          if o._key = run._key then { o with isBasisForNewSkiArea := false }
          else o)
      else createGeneratedSkiArea geo newSkiAreaID acts members store) := by
    unfold generateSkiAreaForRun
    rw [hsynth]
  have hseed : ∀ a ∈ synthesisSeedActivities run,
      a ∈ allSkiAreaActivities := by
    intro a ha
    unfold synthesisSeedActivities at ha
    have := (List.mem_filter.1 ha).2
    simpa using this
  have hmain : (∀ a ∈ acts, a ∈ allSkiAreaActivities) ∧
      (Activity.downhill ∈ acts →
        ∃ o ∈ members, o.type = MapObjectType.lift) ∧
      (Activity.downhill ∈ synthesisSeedActivities run →
        Activity.downhill ∉ acts →
        ∀ o ∈ members, ∃ a ∈ o.activities,
          a ≠ Activity.downhill ∧ a ∈ allSkiAreaActivities) := by
    unfold synthesisActivitiesAndMembers at hsynth
    by_cases hd : downhillDropApplies (synthesisSeedActivities run)
        (synthesisTraversal geo newSkiAreaID run store) = true
    · rw [if_pos hd] at hsynth
      injection hsynth with hacts hmembers
      subst hacts
      subst hmembers
      refine ⟨?_, ?_, ?_⟩
      · intro a ha
        exact hseed a (List.mem_filter.1 ha).1
      · intro hmem
        have := (List.mem_filter.1 hmem).2
        simp at this
      · intro _ _ o ho
        have hpred := (List.mem_filter.1 ho).2
        obtain ⟨a, ha, hcond⟩ := List.any_eq_true.1 hpred
        refine ⟨a, ha, ?_⟩
        simpa using hcond
    · rw [if_neg hd] at hsynth
      injection hsynth with hacts hmembers
      subst hacts
      subst hmembers
      refine ⟨hseed, ?_, ?_⟩
      · intro hmem
        simp only [downhillDropApplies, Bool.and_eq_true, not_and,
          Bool.not_eq_true'] at hd
        have hany := hd (by simpa using hmem)
        have hex : ∃ x ∈ synthesisTraversal geo newSkiAreaID run store,
            x.type = MapObjectType.lift := by simpa using hany
        obtain ⟨o, ho, htype⟩ := hex
        exact ⟨o, ho, htype⟩
      · intro h1 h2
        exact absurd h1 h2
  refine ⟨hmain.1, hmain.2.1, hmain.2.2, ?_, ?_⟩
  · intro he
    rw [hgen, if_pos he]
  · intro he
    have hnotif : ¬((acts.isEmpty || members.isEmpty) = true) := by
      simp [he]
    refine ⟨?_, ?_, ?_, ?_⟩
    · intro hnil
      rw [hnil] at he
      simp at he
    · intro hnil
      rw [hnil] at he
      simp at he
    · rw [hgen, if_neg hnotif]
    · intro c hc
      refine ⟨?_, rfl, rfl⟩
      rw [hgen, if_neg hnotif]
      unfold createGeneratedSkiArea
      rw [hc]



/-- Witness for C3 (no-creation case): a lone downhill run without a lift
loses Downhill, comes out empty, and only has its flag cleared. -/
theorem c3_generated_invariants_witness :
    generateSkiAreaForRun geoF 41 runF storeF =
      .ok (storeF.map fun o =>
        if o._key = runF._key then { o with isBasisForNewSkiArea := false }
        else o) :=
  (c3_generated_invariants geoF 41 runF storeF [] [] (by decide)).2.2.2.1
    (by decide)

/-! ## C4 -/

/-- C4 counterexample: a generated ski area is created with
`isPolygon = true`, not `false`. -/
theorem c4_counterexample :
    (match createGeneratedSkiArea geoF 70 [.nordic] [runG] storeG with
      | .ok s => s.any fun o => o.properties.generated && o.isPolygon
      | .error _ => false) = true := by decide

/-- C4 amended: a generated ski area is created with
`source = CROWDSOURCED` (OpenStreetMap), `generated = true`, geometry the
member centroid, but `isPolygon = true`; only the P5 augmentation sets
`isPolygon = false` and recomputes the centroid geometry. -/
theorem c4_generated_record_shape (geo : GeoOracle) (id : Nat)
    (acts : List Activity) (members : List MapObject) (store : Store)
    (c : Geometry)
    (hc : geo.centroid (members.map (·.geometry)) = some c) :
    createGeneratedSkiArea geo id acts members store =
      .ok (markSkiArea id false members
        (store ++ [draftSkiArea geo id acts c])) ∧
    (draftSkiArea geo id acts c).source = SourceType.openstreetmap ∧
    (draftSkiArea geo id acts c).properties.generated = true ∧
    (draftSkiArea geo id acts c).isPolygon = true ∧
    (draftSkiArea geo id acts c).geometry = c ∧
    ∀ (geocoder : Option (Geometry → Option Nat)) (skiArea : MapObject)
      (members₂ : List MapObject) (g : Geometry),
      (augmentedSkiArea geo geocoder skiArea members₂ g).isPolygon = false ∧
      (augmentedSkiArea geo geocoder skiArea members₂ g).geometry = g := by
  refine ⟨?_, rfl, rfl, rfl, rfl, fun _ _ _ _ => ⟨rfl, rfl⟩⟩
  unfold createGeneratedSkiArea
  rw [hc]

/-- Witness for C4's amended statement. -/
theorem c4_generated_record_shape_witness :
    createGeneratedSkiArea geoF 70 [.nordic] [runG] storeG =
      .ok (markSkiArea 70 false [runG]
        (storeG ++ [draftSkiArea geoF 70 [.nordic] (.point 90)])) :=
  (c4_generated_record_shape geoF 70 [.nordic] [runG] storeG (.point 90)
    (by decide)).1

/-! ## C7 -/

/-- C7 counterexample: an unassigned run with an empty activity set makes
`nextUnassignedRun` throw outside the try/catch and aborts phase P4. -/
theorem c7_counterexample :
    generateSkiAreasForUnassignedObjects geoF 2 storeE =
      .error "No activities for run" := by decide

/-- `nextUnassignedRun` fails only with the empty-activities assertion. -/
theorem nextUnassignedRun_error (store : Store) (e : String)
    (h : nextUnassignedRun store = .error e) :
    e = "No activities for run" := by
  unfold nextUnassignedRun at h
  split at h
  · cases h
  · split at h
    · injection h with he
      exact he.symm
    · cases h

/-- C7 amended: per-run synthesis failures are swallowed by the try/catch
and the loop continues, so the only way phase P4 aborts is the
empty-activities assertion raised inside `nextUnassignedRun`. -/
theorem c7_phase_aborts_only_on_empty_activities (geo : GeoOracle) :
    ∀ (fuel : Nat) (store : Store) (e : String),
      generateSkiAreasForUnassignedObjects geo fuel store = .error e →
      e = "No activities for run"
  | 0, store, e => by
    intro h
    cases h
  | fuel + 1, store, e => by
    intro h
    unfold generateSkiAreasForUnassignedObjects at h
    split at h
    · next e' hn =>
      injection h with he
      subst he
      exact nextUnassignedRun_error store e' hn
    · cases h
    · split at h
      · exact c7_phase_aborts_only_on_empty_activities geo fuel store e h
      · exact c7_phase_aborts_only_on_empty_activities geo fuel _ e h

/-- Witness for C7's amended statement at fixture E. -/
theorem c7_phase_aborts_witness : "No activities for run" =
    "No activities for run" :=
  c7_phase_aborts_only_on_empty_activities geoF 2 storeE
    "No activities for run" (by decide)



/-! ## C8 -/

/-- The number of objects with `isBasisForNewSkiArea = true`, the measure
of phase P4's loop. -/
def basisCount (store : Store) : Nat :=
  store.countP (·.isBasisForNewSkiArea)

theorem countP_lt_of_witness (p q : MapObject → Bool) :
    ∀ (l : List MapObject), (∀ a ∈ l, p a = true → q a = true) →
      ∀ x ∈ l, q x = true → p x = false → l.countP p < l.countP q
  | [], _, x, hx, _, _ => absurd hx (List.not_mem_nil x)
  | y :: rest, hmono, x, hx, hq, hp => by
    have hrest_le : rest.countP p ≤ rest.countP q :=
      List.countP_mono_left fun a ha hpa =>
        hmono a (List.mem_cons_of_mem y ha) hpa
    rw [List.countP_cons, List.countP_cons]
    rcases List.mem_cons.1 hx with rfl | hxrest
    · rw [hp, hq]
      have h0 : (if (false : Bool) = true then 1 else 0) = 0 := rfl
      have h1 : (if (true : Bool) = true then 1 else 0) = 1 := rfl
      rw [h0, h1]
      omega
    · have hlt := countP_lt_of_witness p q rest
        (fun a ha hpa => hmono a (List.mem_cons_of_mem y ha) hpa)
        x hxrest hq hp
      have hhead : (if p y = true then 1 else 0) ≤
          (if q y = true then 1 else 0) := by
        by_cases hpy : p y = true
        · rw [if_pos hpy, if_pos (hmono y (List.mem_cons_self y rest) hpy)]
        · rw [if_neg hpy]
          omega
      omega

/-- `markSkiArea` never sets `isBasisForNewSkiArea` to true. -/
theorem markSkiArea_basis_mono (skiAreaID : Nat) (inPoly : Bool)
    (objects : List MapObject) (o : MapObject) :
    ((if (objects.map (·._key)).contains o._key then
        { o with
          isBasisForNewSkiArea := false
          isInSkiAreaPolygon := o.isInSkiAreaPolygon || inPoly
          skiAreas := appendUnique o.skiAreas skiAreaID }
      else o) : MapObject).isBasisForNewSkiArea = true →
      o.isBasisForNewSkiArea = true := by
  by_cases hk : ((objects.map (·._key)).contains o._key) = true
  · rw [if_pos hk]
    intro h
    cases h
  · rw [if_neg hk]
    exact fun h => h



/-- C8: assuming the store operations succeed, every P4 iteration strictly
decreases the number of objects with `isBasisForNewSkiArea = true`: the
no-creation branch clears the seed run's flag, and the creation branch
marks a member set containing the seed run, clearing every member's
flag, while the saved draft ski area carries `false`. -/
theorem c8_p4_iteration_decreases (geo : GeoOracle) (store : Store)
    (newSkiAreaID : Nat) (run : MapObject) (store' : Store)
    (hnext : nextUnassignedRun store = .ok (some run))
    (hgen : generateSkiAreaForRun geo newSkiAreaID run store = .ok store') :
    basisCount store' < basisCount store := by
  have hrun : run ∈ store ∧ run.isBasisForNewSkiArea = true := by
    unfold nextUnassignedRun at hnext
    split at hnext
    · injection hnext with h
      cases h
    · next r hfind =>
      split at hnext
      · cases hnext
      · injection hnext with h
        injection h with h2
        subst h2
        exact ⟨List.mem_of_find?_eq_some hfind, List.find?_some hfind⟩
  obtain ⟨hmem, hbasis⟩ := hrun
  unfold generateSkiAreaForRun at hgen
  cases hsm : synthesisActivitiesAndMembers geo newSkiAreaID run store with
  | mk acts members =>
  rw [hsm] at hgen
  dsimp only at hgen
  by_cases he : (acts.isEmpty || members.isEmpty) = true
  · rw [if_pos he] at hgen
    injection hgen with h
    subst h
    unfold basisCount
    rw [List.countP_map]
    refine countP_lt_of_witness _ _ store ?_ run hmem hbasis ?_
    · intro a _ hpa
      simp only [Function.comp_apply] at hpa
      by_cases hk : a._key = run._key
      · rw [if_pos hk] at hpa
        cases hpa
      · rwa [if_neg hk] at hpa
    · simp
  · rw [if_neg he] at hgen
    have hacts_ne : acts.isEmpty = false := by
      cases hae : acts.isEmpty
      · rfl
      · exact absurd (by rw [hae]; rfl) he
    have htrav : run ∈ synthesisTraversal geo newSkiAreaID run store := by
      obtain ⟨rest, v, hcons⟩ := visitObject_cons geo store
        (store.length + 1)
        { id := newSkiAreaID, activities := synthesisSeedActivities run,
          excludeObjectsAlreadyInSkiAreaPolygon := false,
          searchPolygon := none } run [run._key]
      unfold synthesisTraversal
      rw [hcons]
      exact List.mem_cons_self run rest
    have hrunmem : run ∈ members := by
      unfold synthesisActivitiesAndMembers at hsm
      by_cases hd : downhillDropApplies (synthesisSeedActivities run)
          (synthesisTraversal geo newSkiAreaID run store) = true
      · rw [if_pos hd] at hsm
        injection hsm with hacts hmembers
        subst hmembers
        have hne : acts ≠ [] := by
          intro hnil
          rw [hnil] at hacts_ne
          cases hacts_ne
        obtain ⟨a, ha⟩ := List.exists_mem_of_ne_nil acts hne
        rw [← hacts] at ha
        obtain ⟨haseed, hand⟩ := List.mem_filter.1 ha
        obtain ⟨harun, hall⟩ := List.mem_filter.1
          (by unfold synthesisSeedActivities at haseed; exact haseed)
        refine List.mem_filter.2 ⟨htrav, ?_⟩
        refine List.any_eq_true.2 ⟨a, harun, ?_⟩
        simp only [decide_eq_true_eq] at hand
        simp only [Bool.and_eq_true, decide_eq_true_eq]
        exact ⟨hand, hall⟩
      · rw [if_neg hd] at hsm
        injection hsm with hacts hmembers
        subst hmembers
        exact htrav
    unfold createGeneratedSkiArea at hgen
    cases hc : geo.centroid (members.map (·.geometry)) with
    | none =>
      rw [hc] at hgen
      cases hgen
    | some c =>
      rw [hc] at hgen
      injection hgen with h
      subst h
      have hkcontains : ((members.map (·._key)).contains run._key) = true := by
        have hmm : run._key ∈ members.map (·._key) :=
          List.mem_map_of_mem (·._key) hrunmem
        simpa using hmm
      unfold markSkiArea basisCount
      rw [List.map_append, List.countP_append]
      have hdraft : (List.map (fun object =>
          if (List.map (fun x => x._key) members).contains object._key then
            { object with
              isBasisForNewSkiArea := false
              isInSkiAreaPolygon := object.isInSkiAreaPolygon || false
              skiAreas := appendUnique object.skiAreas newSkiAreaID }
          else object) [draftSkiArea geo newSkiAreaID acts c]).countP
            (·.isBasisForNewSkiArea) = 0 := by
        simp only [List.map_cons, List.map_nil, List.countP_cons,
          List.countP_nil]
        by_cases hk : ((List.map (fun x => x._key) members).contains
            (draftSkiArea geo newSkiAreaID acts c)._key) = true
        · rw [if_pos hk]
          rfl
        · rw [if_neg hk]
          rfl
      have hmain : (List.map (fun object =>
          if (List.map (fun x => x._key) members).contains object._key then
            { object with
              isBasisForNewSkiArea := false
              isInSkiAreaPolygon := object.isInSkiAreaPolygon || false
              skiAreas := appendUnique object.skiAreas newSkiAreaID }
          else object) store).countP (·.isBasisForNewSkiArea) <
          store.countP (·.isBasisForNewSkiArea) := by
        rw [List.countP_map]
        refine countP_lt_of_witness _ _ store ?_ run hmem hbasis ?_
        · intro a _ hpa
          simp only [Function.comp_apply] at hpa
          exact markSkiArea_basis_mono newSkiAreaID false members a hpa
        · simp only [Function.comp_apply]
          rw [if_pos hkcontains]
      omega



/-- Witness for C8 at fixture F (the flag-clearing branch). -/
theorem c8_p4_iteration_decreases_witness :
    basisCount (storeF.map fun o =>
      if o._key = runF._key then { o with isBasisForNewSkiArea := false }
      else o) < basisCount storeF :=
  c8_p4_iteration_decreases geoF storeF 41 runF _ (by decide) (by decide)



/-! ## C6 -/

/-- The reached object shares an activity with the context. -/
def ActOverlap (context : VisitContext) (x : MapObject) : Prop :=
  ∃ a ∈ x.activities, a ∈ context.activities

/-- Narrowing only shrinks the activity filter. -/
theorem actOverlap_narrow (context : VisitContext) (object x : MapObject)
    (h : ActOverlap (narrowedContext context object) x) :
    ActOverlap context x := by
  obtain ⟨a, ha, hmem⟩ := h
  unfold narrowedContext at hmem
  simp only at hmem
  exact ⟨a, ha, (List.mem_filter.1 hmem).1⟩

/-- Everything `findNearbyObjects` returns shares an activity with the
query context. -/
theorem findNearbyObjects_overlap (geo : GeoOracle) (store : Store)
    (area : PolyGeometry) (mk : MatchKind) (context : VisitContext)
    (visited : List Nat) :
    ∀ x ∈ (findNearbyObjects geo store area mk context visited).1,
      ActOverlap context x := by
  intro x hx
  unfold findNearbyObjects at hx
  by_cases hinv : geo.invalidGeometry area = true
  · rw [if_pos hinv] at hx
    cases hx
  · rw [if_neg hinv] at hx
    simp only at hx
    have hpred := (List.mem_filter.1 hx).2
    simp only [Bool.and_eq_true] at hpred
    obtain ⟨a, ha, hc⟩ := List.any_eq_true.1 hpred.2
    refine ⟨a, ha, ?_⟩
    simpa using hc

/-- The object loop preserves the activity-overlap property. -/
theorem visitObjectsLoop_overlap
    (visit : MapObject → List Nat → List MapObject × List Nat)
    (ctx : VisitContext)
    (hvisit : ∀ object visited, ∀ x ∈ (visit object visited).1,
      x = object ∨ ActOverlap ctx x) :
    ∀ (objs : List MapObject) (acc : List MapObject) (visited : List Nat),
      (∀ o ∈ objs, ActOverlap ctx o) →
      ∀ x ∈ (visitObjectsLoop visit objs acc visited).1,
        x ∈ acc ∨ ActOverlap ctx x
  | [], acc, visited, _, x, hx => .inl hx
  | o :: rest, acc, visited, hobjs, x, hx => by
    simp only [visitObjectsLoop] at hx
    rcases visitObjectsLoop_overlap visit ctx hvisit rest
      (acc ++ (visit o visited).1) (visit o visited).2
      (fun o' ho' => hobjs o' (List.mem_cons_of_mem o ho')) x hx with
      hmem | hov
    · rcases List.mem_append.1 hmem with hacc | hr
      · exact .inl hacc
      · rcases hvisit o visited x hr with rfl | hov
        · exact .inr (hobjs x (List.mem_cons_self x rest))
        · exact .inr hov
    · exact .inr hov

/-- The component loop preserves the activity-overlap property. -/
theorem visitPolygonsLoop_overlap
    (visitP : Nat → List Nat → List MapObject × List Nat)
    (ctx : VisitContext)
    (hvisit : ∀ p visited, ∀ x ∈ (visitP p visited).1, ActOverlap ctx x) :
    ∀ (ps : List Nat) (acc : List MapObject) (visited : List Nat),
      ∀ x ∈ (visitPolygonsLoop visitP ps acc visited).1,
        x ∈ acc ∨ ActOverlap ctx x
  | [], acc, visited, x, hx => .inl hx
  | p :: rest, acc, visited, x, hx => by
    simp only [visitPolygonsLoop] at hx
    rcases visitPolygonsLoop_overlap visitP ctx hvisit rest
      (acc ++ (visitP p visited).1) (visitP p visited).2 x hx with
      hmem | hov
    · rcases List.mem_append.1 hmem with hacc | hr
      · exact .inl hacc
      · exact .inr (hvisit p visited x hr)
    · exact .inr hov

/-- A single polygon visit only returns overlapping objects. -/
theorem visitPolygonWith_overlap (geo : GeoOracle) (store : Store)
    (visit : MapObject → List Nat → List MapObject × List Nat)
    (ctx : VisitContext)
    (hvisit : ∀ object visited, ∀ x ∈ (visit object visited).1,
      x = object ∨ ActOverlap ctx x)
    (p : Nat) (visited : List Nat) :
    ∀ x ∈ (visitPolygonWith geo store visit ctx p visited).1,
      ActOverlap ctx x := by
  intro x hx
  unfold visitPolygonWith at hx
  by_cases hsp : ctx.searchPolygon.isSome = true
  · simp only [hsp, if_true] at hx
    exact findNearbyObjects_overlap geo store (.polygon p) .contains ctx
      visited x hx
  · simp only [hsp, Bool.false_eq_true, if_false] at hx
    rcases visitObjectsLoop_overlap visit ctx hvisit _ [] _
      (fun o ho => findNearbyObjects_overlap geo store (.polygon p)
        .intersects ctx visited o ho) x hx with hacc | hov
    · cases hacc
    · exact hov

/-- The traversal core narrows activities: every reached object other than
the seed overlaps the context's activity set. -/
theorem visitObject_overlap (geo : GeoOracle) (store : Store) :
    ∀ (fuel : Nat) (context : VisitContext) (object : MapObject)
      (visited : List Nat),
      ∀ x ∈ (visitObject geo store fuel context object visited).1,
        x = object ∨ ActOverlap context x
  | 0, context, object, visited, x, hx => by
    simp only [visitObject] at hx
    rcases List.mem_cons.1 hx with rfl | h
    · exact .inl rfl
    · cases h
  | fuel + 1, context, object, visited, x, hx => by
    have hvisit : ∀ o v, ∀ y ∈ (visitObject geo store fuel
        (narrowedContext context object) o v).1,
        y = o ∨ ActOverlap (narrowedContext context object) y :=
      fun o v => visitObject_overlap geo store fuel
        (narrowedContext context object) o v
    simp only [visitObject] at hx
    rcases hsp : context.searchPolygon with _ | sp
    · rw [hsp] at hx
      rcases hbuf : geo.bufferGeometry object.geometry
          maxDistanceInKilometers with _ | area
      · rw [hbuf] at hx
        rcases List.mem_cons.1 hx with rfl | h
        · exact .inl rfl
        · cases h
      · rw [hbuf] at hx
        cases area with
        | polygon p =>
          simp only at hx
          rcases List.mem_cons.1 hx with rfl | h
          · exact .inl rfl
          · exact .inr (actOverlap_narrow context object x
              (visitPolygonWith_overlap geo store _ _ hvisit p visited x h))
        | multiPolygon ps =>
          simp only at hx
          rcases visitPolygonsLoop_overlap _ (narrowedContext context object)
            (fun p v => visitPolygonWith_overlap geo store _ _ hvisit p v)
            ps [object] visited x hx with hacc | hov
          · rcases List.mem_cons.1 hacc with rfl | h
            · exact .inl rfl
            · cases h
          · exact .inr (actOverlap_narrow context object x hov)
    · rw [hsp] at hx
      cases sp with
      | polygon p =>
        simp only at hx
        rcases List.mem_cons.1 hx with rfl | h
        · exact .inl rfl
        · exact .inr (actOverlap_narrow context object x
            (visitPolygonWith_overlap geo store _ _ hvisit p visited x h))
      | multiPolygon ps =>
        simp only at hx
        rcases visitPolygonsLoop_overlap _ (narrowedContext context object)
          (fun p v => visitPolygonWith_overlap geo store _ _ hvisit p v)
          ps [object] visited x hx with hacc | hov
        · rcases List.mem_cons.1 hacc with rfl | h
          · exact .inl rfl
          · cases h
        · exact .inr (actOverlap_narrow context object x hov)



/-- C6: traversal narrows activities monotonically: the refined context is
the intersection of the parent context's and the visited object's
activities, and every object reached by a traversal other than the seed
has at least one activity in the traversal's seed activity set. -/
theorem c6_activity_narrowing (geo : GeoOracle) (store : Store) (fuel : Nat)
    (context : VisitContext) (object : MapObject) (visited : List Nat) :
    (∀ a, a ∈ (narrowedContext context object).activities ↔
      (a ∈ context.activities ∧ a ∈ object.activities)) ∧
    ∀ x ∈ (visitObject geo store fuel context object visited).1,
      x = object ∨ ∃ a ∈ x.activities, a ∈ context.activities := by
  constructor
  · intro a
    unfold narrowedContext
    simp only []
    rw [List.mem_filter]
    simp
  · exact fun x hx =>
      visitObject_overlap geo store fuel context object visited x hx

/-- Witness for C6: in fixture A the reached run shares `downhill` with the
seed context. -/
theorem c6_activity_narrowing_witness :
    runA = skiAreaA ∨ ∃ a ∈ runA.activities,
      a ∈ ({ id := 20, activities := [Activity.downhill],
             excludeObjectsAlreadyInSkiAreaPolygon := false,
             searchPolygon := some (.polygon 100) } :
               VisitContext).activities :=
  (c6_activity_narrowing geoA storeA 3 _ skiAreaA [20]).2 runA (by decide)



/-! ## C10 -/

/-- `visited'` extends `visited` by fresh, pairwise-distinct keys (the
append-only discipline of `alreadyVisited`). -/
def VisitedExtends (visited visited' : List Nat) : Prop :=
  ∃ ext, visited' = visited ++ ext ∧ (∀ k ∈ ext, k ∉ visited) ∧ ext.Nodup

theorem visitedExtends_refl (visited : List Nat) :
    VisitedExtends visited visited :=
  ⟨[], by simp, by simp, List.nodup_nil⟩

theorem visitedExtends_mem (visited visited' : List Nat)
    (h : VisitedExtends visited visited') :
    ∀ k ∈ visited, k ∈ visited' := by
  obtain ⟨ext, rfl, _, _⟩ := h
  intro k hk
  exact List.mem_append_left ext hk

theorem visitedExtends_trans (a b c : List Nat)
    (hab : VisitedExtends a b) (hbc : VisitedExtends b c) :
    VisitedExtends a c := by
  obtain ⟨e1, rfl, f1, n1⟩ := hab
  obtain ⟨e2, rfl, f2, n2⟩ := hbc
  refine ⟨e1 ++ e2, by simp, ?_, ?_⟩
  · intro k hk
    rcases List.mem_append.1 hk with h1 | h2
    · exact f1 k h1
    · intro ha
      exact f2 k h2 (List.mem_append_left e1 ha)
  · refine List.Nodup.append n1 n2 ?_
    intro k h1 h2
    exact f2 k h2 (List.mem_append_right a h1)

/-- Fresh keys of the nearby filter: nothing already visited is returned. -/
theorem nearbyFilter_fresh (geo : GeoOracle) (store : Store)
    (area : PolyGeometry) (mk : MatchKind) (context : VisitContext)
    (visited : List Nat) :
    ∀ x ∈ nearbyFilter geo store area mk context visited,
      x._key ∉ visited ∧ x ∈ store := by
  intro x hx
  have hmem := (List.mem_filter.1 hx).1
  have hpred := (List.mem_filter.1 hx).2
  simp only [Bool.and_eq_true] at hpred
  have hnv := hpred.1.1.2
  simp only [Bool.not_eq_true'] at hnv
  exact ⟨by simpa using hnv, hmem⟩

/-- With pairwise-distinct store keys, the nearby filter's keys are
pairwise distinct. -/
theorem nearbyFilter_nodup (geo : GeoOracle) (store : Store)
    (hstore : (store.map (·._key)).Nodup) (area : PolyGeometry)
    (mk : MatchKind) (context : VisitContext) (visited : List Nat) :
    ((nearbyFilter geo store area mk context visited).map (·._key)).Nodup :=
  hstore.sublist (List.Sublist.map (·._key) (List.filter_sublist store))

/-- `findNearbyObjects` extends the visited list by exactly its result's
keys. -/
theorem findNearbyObjects_extends (geo : GeoOracle) (store : Store)
    (hstore : (store.map (·._key)).Nodup) (area : PolyGeometry)
    (mk : MatchKind) (context : VisitContext) (visited : List Nat) :
    VisitedExtends visited
      (findNearbyObjects geo store area mk context visited).2 ∧
    (∀ x ∈ (findNearbyObjects geo store area mk context visited).1,
      x._key ∈ (findNearbyObjects geo store area mk context visited).2 ∧
      x._key ∉ visited ∧ x ∈ store) ∧
    (((findNearbyObjects geo store area mk context visited).1.map
      (·._key)).Nodup) := by
  unfold findNearbyObjects
  by_cases hinv : geo.invalidGeometry area = true
  · rw [if_pos hinv]
    refine ⟨visitedExtends_refl visited, ?_, by simp⟩
    intro x hx
    cases hx
  · rw [if_neg hinv]
    refine ⟨⟨(nearbyFilter geo store area mk context visited).map (·._key),
      rfl, ?_, nearbyFilter_nodup geo store hstore area mk context
        visited⟩, ?_, nearbyFilter_nodup geo store hstore area mk context
        visited⟩
    · intro k hk
      obtain ⟨x, hx, rfl⟩ := List.mem_map.1 hk
      exact (nearbyFilter_fresh geo store area mk context visited x hx).1
    · intro x hx
      refine ⟨List.mem_append_right visited
        (List.mem_map_of_mem (·._key) hx),
        (nearbyFilter_fresh geo store area mk context visited x hx).1,
        (nearbyFilter_fresh geo store area mk context visited x hx).2⟩



/-- The induction package a recursive visit callback satisfies: it only
appends fresh keys to the visited list, returns besides its seed only
objects whose keys were freshly visited, and (when its seed was already
visited) returns pairwise-distinct keys. -/
def VisitCallbackPack
    (visit : MapObject → List Nat → List MapObject × List Nat) : Prop :=
  ∀ object visited,
    VisitedExtends visited (visit object visited).2 ∧
    (∀ x ∈ (visit object visited).1,
      x = object ∨
        (x._key ∈ (visit object visited).2 ∧ x._key ∉ visited)) ∧
    (object._key ∈ visited →
      (((visit object visited).1.map (·._key)).Nodup))

/-- Induction package of the object loop of `visitPolygon`. -/
theorem visitObjectsLoop_pack
    (visit : MapObject → List Nat → List MapObject × List Nat)
    (hv : VisitCallbackPack visit) (base : List Nat) :
    ∀ (objs : List MapObject) (acc : List MapObject) (visited : List Nat),
      (∀ o ∈ objs, o._key ∈ visited) →
      ((objs.map (·._key)).Nodup) →
      (∀ o ∈ objs, o._key ∉ base) →
      (∀ k ∈ base, k ∈ visited) →
      VisitedExtends visited (visitObjectsLoop visit objs acc visited).2 ∧
      (∀ x ∈ (visitObjectsLoop visit objs acc visited).1,
        x ∈ acc ∨
          (x._key ∈ (visitObjectsLoop visit objs acc visited).2 ∧
           x._key ∉ base)) ∧
      (((acc.map (·._key)).Nodup) →
       (∀ k ∈ acc.map (·._key), k ∈ visited) →
       (∀ o ∈ objs, o._key ∉ acc.map (·._key)) →
       (((visitObjectsLoop visit objs acc visited).1.map (·._key)).Nodup ∧
        ∀ k ∈ (visitObjectsLoop visit objs acc visited).1.map (·._key),
          k ∈ (visitObjectsLoop visit objs acc visited).2))
  | [], acc, visited, h1, h2, h3, h4 => by
    simp only [visitObjectsLoop]
    exact ⟨visitedExtends_refl visited, fun x hx => .inl hx,
      fun hand hasub _ => ⟨hand, hasub⟩⟩
  | o :: rest, acc, visited, h1, h2, h3, h4 => by
    simp only [visitObjectsLoop]
    obtain ⟨hv1, hv2, hv3⟩ := hv o visited
    have hokey : o._key ∈ visited := h1 o (List.mem_cons_self o rest)
    have h1' : ∀ o' ∈ rest, o'._key ∈ (visit o visited).2 := fun o' h =>
      visitedExtends_mem _ _ hv1 _ (h1 o' (List.mem_cons_of_mem o h))
    have h2' : (rest.map (·._key)).Nodup := by
      simp only [List.map_cons, List.nodup_cons] at h2
      exact h2.2
    have hhead : o._key ∉ rest.map (·._key) := by
      simp only [List.map_cons, List.nodup_cons] at h2
      exact h2.1
    have h3' : ∀ o' ∈ rest, o'._key ∉ base := fun o' h =>
      h3 o' (List.mem_cons_of_mem o h)
    have h4' : ∀ k ∈ base, k ∈ (visit o visited).2 := fun k hk =>
      visitedExtends_mem _ _ hv1 k (h4 k hk)
    obtain ⟨ihA, ihB, ihC⟩ := visitObjectsLoop_pack visit hv base rest
      (acc ++ (visit o visited).1) (visit o visited).2 h1' h2' h3' h4'
    refine ⟨visitedExtends_trans _ _ _ hv1 ihA, ?_, ?_⟩
    · intro x hx
      rcases ihB x hx with hmem | hfresh
      · rcases List.mem_append.1 hmem with hacc | hr
        · exact .inl hacc
        · rcases hv2 x hr with rfl | ⟨hkv, hknv⟩
          · refine .inr ⟨?_, h3 x (List.mem_cons_self x rest)⟩
            exact visitedExtends_mem _ _ ihA _
              (visitedExtends_mem _ _ hv1 _ hokey)
          · refine .inr ⟨visitedExtends_mem _ _ ihA _ hkv, ?_⟩
            intro hb
            exact hknv (h4 _ hb)
      · exact .inr hfresh
    · intro hand hasub hdisj
      have hrnodup : (((visit o visited).1.map (·._key))).Nodup := hv3 hokey
      have hrsub : ∀ k ∈ (visit o visited).1.map (·._key),
          k ∈ (visit o visited).2 := by
        intro k hk
        obtain ⟨x, hx, rfl⟩ := List.mem_map.1 hk
        rcases hv2 x hx with rfl | ⟨hkv, _⟩
        · exact visitedExtends_mem _ _ hv1 _ hokey
        · exact hkv
      have hdisjar : ∀ k ∈ acc.map (·._key),
          k ∉ (visit o visited).1.map (·._key) := by
        intro k hkacc hkr
        obtain ⟨x, hx, rfl⟩ := List.mem_map.1 hkr
        rcases hv2 x hx with rfl | ⟨_, hknv⟩
        · exact hdisj x (List.mem_cons_self x rest) hkacc
        · exact hknv (hasub _ hkacc)
      have hand' : (((acc ++ (visit o visited).1).map (·._key))).Nodup := by
        rw [List.map_append]
        exact List.Nodup.append hand hrnodup hdisjar
      have hasub' : ∀ k ∈ (acc ++ (visit o visited).1).map (·._key),
          k ∈ (visit o visited).2 := by
        intro k hk
        rw [List.map_append] at hk
        rcases List.mem_append.1 hk with hkacc | hkr
        · exact visitedExtends_mem _ _ hv1 _ (hasub _ hkacc)
        · exact hrsub _ hkr
      have hdisj' : ∀ o' ∈ rest,
          o'._key ∉ (acc ++ (visit o visited).1).map (·._key) := by
        intro o' ho' hk
        rw [List.map_append] at hk
        rcases List.mem_append.1 hk with hkacc | hkr
        · exact hdisj o' (List.mem_cons_of_mem o ho') hkacc
        · obtain ⟨x, hx, hkey⟩ := List.mem_map.1 hkr
          rcases hv2 x hx with rfl | ⟨_, hknv⟩
          · exact hhead (hkey ▸ List.mem_map_of_mem (·._key) ho')
          · exact hknv (hkey ▸ h1 o' (List.mem_cons_of_mem o ho'))
      exact ihC hand' hasub' hdisj'



/-- Induction package of a single polygon visit: every returned object's
key is freshly visited, and the returned keys are pairwise distinct. -/
theorem visitPolygonWith_pack (geo : GeoOracle) (store : Store)
    (hstore : (store.map (·._key)).Nodup)
    (visit : MapObject → List Nat → List MapObject × List Nat)
    (ctx : VisitContext) (hv : VisitCallbackPack visit) (p : Nat)
    (visited : List Nat) :
    VisitedExtends visited
      (visitPolygonWith geo store visit ctx p visited).2 ∧
    (∀ x ∈ (visitPolygonWith geo store visit ctx p visited).1,
      x._key ∈ (visitPolygonWith geo store visit ctx p visited).2 ∧
      x._key ∉ visited) ∧
    (((visitPolygonWith geo store visit ctx p visited).1.map
      (·._key)).Nodup) ∧
    (∀ k ∈ (visitPolygonWith geo store visit ctx p visited).1.map (·._key),
      k ∈ (visitPolygonWith geo store visit ctx p visited).2) := by
  unfold visitPolygonWith
  by_cases hsp : ctx.searchPolygon.isSome = true
  · simp only [hsp, if_true]
    obtain ⟨hfA, hfB, hfC⟩ := findNearbyObjects_extends geo store hstore
      (.polygon p) .contains ctx visited
    refine ⟨hfA, fun x hx => ⟨(hfB x hx).1, (hfB x hx).2.1⟩, hfC, ?_⟩
    intro k hk
    obtain ⟨x, hx, rfl⟩ := List.mem_map.1 hk
    exact (hfB x hx).1
  · simp only [hsp, Bool.false_eq_true, if_false]
    obtain ⟨hfA, hfB, hfC⟩ := findNearbyObjects_extends geo store hstore
      (.polygon p) .intersects ctx visited
    obtain ⟨ihA, ihB, ihC⟩ := visitObjectsLoop_pack visit hv visited
      (findNearbyObjects geo store (.polygon p) .intersects ctx visited).1
      []
      (findNearbyObjects geo store (.polygon p) .intersects ctx visited).2
      (fun o ho => (hfB o ho).1) hfC (fun o ho => (hfB o ho).2.1)
      (visitedExtends_mem _ _ hfA)
    obtain ⟨ihC1, ihC2⟩ := ihC (by simp) (by simp) (by simp)
    refine ⟨visitedExtends_trans _ _ _ hfA ihA, ?_, ihC1, ihC2⟩
    intro x hx
    rcases ihB x hx with hmem | hfresh
    · cases hmem
    · exact hfresh

/-- Induction package of the multipolygon component loop. -/
theorem visitPolygonsLoop_pack
    (visitP : Nat → List Nat → List MapObject × List Nat)
    (hp : ∀ p visited,
      VisitedExtends visited (visitP p visited).2 ∧
      (∀ x ∈ (visitP p visited).1,
        x._key ∈ (visitP p visited).2 ∧ x._key ∉ visited) ∧
      (((visitP p visited).1.map (·._key)).Nodup) ∧
      (∀ k ∈ (visitP p visited).1.map (·._key),
        k ∈ (visitP p visited).2))
    (base : List Nat) :
    ∀ (ps : List Nat) (acc : List MapObject) (visited : List Nat),
      (∀ k ∈ base, k ∈ visited) →
      VisitedExtends visited (visitPolygonsLoop visitP ps acc visited).2 ∧
      (∀ x ∈ (visitPolygonsLoop visitP ps acc visited).1,
        x ∈ acc ∨
          (x._key ∈ (visitPolygonsLoop visitP ps acc visited).2 ∧
           x._key ∉ base)) ∧
      (((acc.map (·._key)).Nodup) →
       (∀ k ∈ acc.map (·._key), k ∈ visited) →
       (((visitPolygonsLoop visitP ps acc visited).1.map (·._key)).Nodup ∧
        ∀ k ∈ (visitPolygonsLoop visitP ps acc visited).1.map (·._key),
          k ∈ (visitPolygonsLoop visitP ps acc visited).2))
  | [], acc, visited, hbase => by
    simp only [visitPolygonsLoop]
    exact ⟨visitedExtends_refl visited, fun x hx => .inl hx,
      fun hand hasub => ⟨hand, hasub⟩⟩
  | p :: rest, acc, visited, hbase => by
    simp only [visitPolygonsLoop]
    obtain ⟨hp1, hp2, hp3, hp4⟩ := hp p visited
    obtain ⟨ihA, ihB, ihC⟩ := visitPolygonsLoop_pack visitP hp base rest
      (acc ++ (visitP p visited).1) (visitP p visited).2
      (fun k hk => visitedExtends_mem _ _ hp1 k (hbase k hk))
    refine ⟨visitedExtends_trans _ _ _ hp1 ihA, ?_, ?_⟩
    · intro x hx
      rcases ihB x hx with hmem | hfresh
      · rcases List.mem_append.1 hmem with hacc | hr
        · exact .inl hacc
        · refine .inr ⟨visitedExtends_mem _ _ ihA _ (hp2 x hr).1, ?_⟩
          intro hb
          exact (hp2 x hr).2 (hbase _ hb)
      · exact .inr hfresh
    · intro hand hasub
      have hand' : (((acc ++ (visitP p visited).1).map (·._key))).Nodup := by
        rw [List.map_append]
        refine List.Nodup.append hand hp3 ?_
        intro k hkacc hkr
        obtain ⟨x, hx, rfl⟩ := List.mem_map.1 hkr
        exact (hp2 x hx).2 (hasub _ hkacc)
      have hasub' : ∀ k ∈ (acc ++ (visitP p visited).1).map (·._key),
          k ∈ (visitP p visited).2 := by
        intro k hk
        rw [List.map_append] at hk
        rcases List.mem_append.1 hk with hkacc | hkr
        · exact visitedExtends_mem _ _ hp1 _ (hasub _ hkacc)
        · exact hp4 _ hkr
      exact ihC hand' hasub'



/-- The traversal's induction package: `visitObject` extends the visited
keys freshly, returns besides the seed only freshly visited objects, and
when the seed is already visited it returns pairwise-distinct keys. -/
theorem visitObject_pack (geo : GeoOracle) (store : Store)
    (hstore : (store.map (·._key)).Nodup) :
    ∀ (fuel : Nat) (context : VisitContext) (object : MapObject)
      (visited : List Nat),
      VisitedExtends visited
        (visitObject geo store fuel context object visited).2 ∧
      (∀ x ∈ (visitObject geo store fuel context object visited).1,
        x = object ∨
          (x._key ∈ (visitObject geo store fuel context object visited).2 ∧
           x._key ∉ visited)) ∧
      (object._key ∈ visited →
        (((visitObject geo store fuel context object visited).1.map
          (·._key)).Nodup))
  | 0, context, object, visited => by
    simp only [visitObject]
    exact ⟨visitedExtends_refl visited,
      fun x hx => .inl (by simpa using hx),
      fun _ => by simp⟩
  | fuel + 1, context, object, visited => by
    have hv : VisitCallbackPack
        (visitObject geo store fuel (narrowedContext context object)) :=
      fun o v => visitObject_pack geo store hstore fuel
        (narrowedContext context object) o v
    simp only [visitObject]
    rcases hsp : context.searchPolygon with _ | sp
    · rcases hbuf : geo.bufferGeometry object.geometry
          maxDistanceInKilometers with _ | area
      · simp only []
        exact ⟨visitedExtends_refl visited,
          fun x hx => .inl (by simpa using hx),
          fun _ => by simp⟩
      · cases area with
        | polygon p =>
          simp only []
          obtain ⟨hA, hB, hC, hD⟩ := visitPolygonWith_pack geo store hstore
            _ (narrowedContext context object) hv p visited
          refine ⟨hA, ?_, ?_⟩
          · intro x hx
            rcases List.mem_cons.1 hx with rfl | h
            · exact .inl rfl
            · exact .inr ⟨(hB x h).1, (hB x h).2⟩
          · intro hseed
            simp only [List.map_cons, List.nodup_cons]
            refine ⟨?_, hC⟩
            intro hmem
            obtain ⟨x, hx, hkey⟩ := List.mem_map.1 hmem
            exact (hB x hx).2 (hkey ▸ hseed)
        | multiPolygon ps =>
          simp only []
          obtain ⟨hA, hB, hC⟩ := visitPolygonsLoop_pack _
            (fun p v => visitPolygonWith_pack geo store hstore _
              (narrowedContext context object) hv p v) visited ps [object]
            visited (fun k hk => hk)
          refine ⟨hA, ?_, ?_⟩
          · intro x hx
            rcases hB x hx with hmem | hfresh
            · exact .inl (by simpa using hmem)
            · exact .inr hfresh
          · intro hseed
            exact (hC (by simp) (by simpa using hseed)).1
    · cases sp with
      | polygon p =>
        simp only []
        obtain ⟨hA, hB, hC, hD⟩ := visitPolygonWith_pack geo store hstore
          _ (narrowedContext context object) hv p visited
        refine ⟨hA, ?_, ?_⟩
        · intro x hx
          rcases List.mem_cons.1 hx with rfl | h
          · exact .inl rfl
          · exact .inr ⟨(hB x h).1, (hB x h).2⟩
        · intro hseed
          simp only [List.map_cons, List.nodup_cons]
          refine ⟨?_, hC⟩
          intro hmem
          obtain ⟨x, hx, hkey⟩ := List.mem_map.1 hmem
          exact (hB x hx).2 (hkey ▸ hseed)
      | multiPolygon ps =>
        simp only []
        obtain ⟨hA, hB, hC⟩ := visitPolygonsLoop_pack _
          (fun p v => visitPolygonWith_pack geo store hstore _
            (narrowedContext context object) hv p v) visited ps [object]
          visited (fun k hk => hk)
        refine ⟨hA, ?_, ?_⟩
        · intro x hx
          rcases hB x hx with hmem | hfresh
          · exact .inl (by simpa using hmem)
          · exact .inr hfresh
        · intro hseed
          exact (hC (by simp) (by simpa using hseed)).1



/-- C10: every traversal whose context's `alreadyVisited` contains the seed
object's key returns a duplicate-free member list, because
`findNearbyObjects` excludes already-visited keys and appends every
returned key to `alreadyVisited` before any recursive visit. -/
theorem c10_traversal_nodup (geo : GeoOracle) (store : Store) (fuel : Nat)
    (context : VisitContext) (object : MapObject) (visited : List Nat)
    (hstore : (store.map (·._key)).Nodup)
    (hseed : object._key ∈ visited) :
    (((visitObject geo store fuel context object visited).1.map
      (·._key))).Nodup :=
  (visitObject_pack geo store hstore fuel context object visited).2.2 hseed

/-- Witness for C10 at fixture A. -/
theorem c10_traversal_nodup_witness :
    (((visitObject geoA storeA 3
      { id := 20, activities := [Activity.downhill],
        excludeObjectsAlreadyInSkiAreaPolygon := false,
        searchPolygon := some (.polygon 100) } skiAreaA [20]).1.map
      (·._key))).Nodup :=
  c10_traversal_nodup geoA storeA 3 _ skiAreaA [20] (by decide) (by decide)



/-! ## C5 -/

/-- C5 (code bug): running the whole pipeline on fixture D ends with ski
area D2 still holding the id of ski area D1 in its `skiAreas` while D1 was
removed by the P5 orphan cleanup: the cleanup counts only non-SkiArea
references when deciding to delete and rewrites none, but ski areas gain
references to other ski areas in P2. -/
theorem c5_dangling_reference_demo :
    (match clusterArangoGraph geoD noMerger none 4 storeD with
      | .ok s =>
        s.any (fun o => o.skiAreas.contains 1) &&
        !(s.any fun o => o.type = MapObjectType.skiArea && o.id = 1)
      | .error _ => false) = true := by decide

/-! ## C9 -/

/-- C9 counterexample: running the pipeline a second time on fixture I's
first-run output changes the store (the second buffered pass searches from
the centroid geometry written by P5 and claims the central lift), although
no object carries `isBasisForNewSkiArea = true` after the first run. -/
theorem c9_counterexample :
    ((runPipelineI storeI).bind runPipelineI ≠ runPipelineI storeI) ∧
    (match runPipelineI storeI with
      | .ok s => s.all fun o => !o.isBasisForNewSkiArea
      | .error _ => false) = true := by
  constructor
  · decide
  · decide

/-- The two possible successful outcomes of a P5 iteration: orphan removal
or the centroid/statistics update written under the ski area's id. -/
theorem augmentSkiArea_result (geo : GeoOracle)
    (geocoder : Option (Geometry → Option Nat)) (skiArea : MapObject)
    (members : List MapObject) (st st₁ : Store)
    (h : augmentSkiAreaBasedOnAssignedLiftsAndRuns geo geocoder skiArea
      members st = .ok st₁) :
    (st₁ = st.filter (·._key ≠ skiArea._key)) ∨
    (∃ g, st₁ = st.map fun o =>
      if o._key = skiArea.id then
        augmentedSkiArea geo geocoder skiArea members g
      else o) := by
  simp only [augmentSkiAreaBasedOnAssignedLiftsAndRuns] at h
  by_cases hrm : (members.isEmpty &&
      !skiArea.properties.sources.any
        (·.type = SourceType.skimapOrg)) = true
  · rw [if_pos hrm] at h
    injection h with h1
    exact .inl h1.symm
  · rw [if_neg hrm] at h
    cases hc : (if members.isEmpty = true then some skiArea.geometry
        else geo.centroid (members.map (·.geometry))) with
    | none =>
      rw [hc] at h
      dsimp only at h
      cases h
    | some g =>
      rw [hc] at h
      dsimp only at h
      by_cases hex : (st.any (·._key = skiArea.id)) = true
      · rw [if_pos hex] at h
        injection h with h1
        exact .inr ⟨g, h1.symm⟩
      · rw [if_neg hex] at h
        cases h

/-- Fold invariant of phase P5: once the pending list is exhausted, every
surviving ski area has `isPolygon = false` (ski-area ids must equal their
document keys, as the update addresses documents by id). -/
theorem augmentFold_invariant (geo : GeoOracle)
    (geocoder : Option (Geometry → Option Nat)) :
    ∀ (todo : List MapObject) (st s' : Store),
      (∀ o ∈ todo, o.id = o._key) →
      (∀ o ∈ st, o.type = MapObjectType.skiArea →
        o.isPolygon = false ∨ o._key ∈ todo.map (·._key)) →
      (todo.foldlM (fun st skiArea =>
        augmentSkiAreaBasedOnAssignedLiftsAndRuns geo geocoder skiArea
          (getObjects skiArea.id st) st) st = .ok s') →
      ∀ o ∈ s', o.type = MapObjectType.skiArea → o.isPolygon = false
  | [], st, s', _, hinv, hfold => by
    injection hfold with h1
    subst h1
    intro o ho htype
    rcases hinv o ho htype with hfalse | hmem
    · exact hfalse
    · cases hmem
  | hd :: rest, st, s', hids, hinv, hfold => by
    rw [List.foldlM_cons] at hfold
    cases haug : augmentSkiAreaBasedOnAssignedLiftsAndRuns geo geocoder hd
        (getObjects hd.id st) st with
    | error e =>
      rw [haug] at hfold
      cases hfold
    | ok st₁ =>
      rw [haug] at hfold
      refine augmentFold_invariant geo geocoder rest st₁ s'
        (fun o ho => hids o (List.mem_cons_of_mem hd ho)) ?_ hfold
      intro o ho htype
      rcases augmentSkiArea_result geo geocoder hd (getObjects hd.id st) st
        st₁ haug with hrem | ⟨g, hupd⟩
      · subst hrem
        have homem := List.mem_filter.1 ho
        have hne : o._key ≠ hd._key := by simpa using homem.2
        rcases hinv o homem.1 htype with hfalse | hmem
        · exact .inl hfalse
        · simp only [List.map_cons, List.mem_cons] at hmem
          rcases hmem with heq | hmem
          · exact absurd heq hne
          · exact .inr hmem
      · subst hupd
        obtain ⟨o₀, ho₀, rfl⟩ := List.mem_map.1 ho
        by_cases hk : o₀._key = hd.id
        · rw [if_pos hk]
          exact .inl rfl
        · rw [if_neg hk] at htype ⊢
          rcases hinv o₀ ho₀ htype with hfalse | hmem
          · exact .inl hfalse
          · simp only [List.map_cons, List.mem_cons] at hmem
            rcases hmem with heq | hmem
            · exact absurd (heq.trans
                (hids hd (List.mem_cons_self hd rest)).symm) hk
            · exact .inr hmem



/-- C9 amended: after a successful P5 pass (with ski-area ids equal to
their keys) every surviving ski area has `isPolygon = false`, so the second
run's P0 and P1, which enumerate only polygon ski areas, select nothing and
leave the store unchanged; moreover when no object carries
`isBasisForNewSkiArea = true` (the proviso), the second run's P4 is a
no-op; full idempotence still fails because P5 rewrites geometries (see
the counterexample). -/
theorem c9_second_run_polygon_phases_noop (geo : GeoOracle)
    (geocoder : Option (Geometry → Option Nat))
    (merger : List MapObject → Option MapObject) (store s' : Store)
    (hids : ∀ o ∈ store, o.type = MapObjectType.skiArea → o.id = o._key)
    (h : augmentSkiAreasBasedOnAssignedLiftsAndRuns geo geocoder store =
      .ok s') :
    (∀ o ∈ s', o.type = MapObjectType.skiArea → o.isPolygon = false) ∧
    removeAmbiguousDuplicateSkiAreas geo s' = .ok s' ∧
    assignObjectsToSkiAreas geo merger p1Options s' = .ok s' ∧
    (∀ fuel : Nat, (∀ o ∈ s', o.isBasisForNewSkiArea = false) →
      generateSkiAreasForUnassignedObjects geo fuel s' = .ok s') := by
  have hp4 : ∀ fuel : Nat, (∀ o ∈ s', o.isBasisForNewSkiArea = false) →
      generateSkiAreasForUnassignedObjects geo fuel s' = .ok s' := by
    intro fuel hflags
    cases fuel with
    | zero => rfl
    | succ fuel =>
      have hnone : nextUnassignedRun s' = .ok none := by
        unfold nextUnassignedRun
        have hfind : s'.find? (·.isBasisForNewSkiArea) = none := by
          rw [List.find?_eq_none]
          intro o ho
          simp [hflags o ho]
        rw [hfind]
      unfold generateSkiAreasForUnassignedObjects
      rw [hnone]
  have hpoly : ∀ o ∈ s', o.type = MapObjectType.skiArea →
      o.isPolygon = false := by
    unfold augmentSkiAreasBasedOnAssignedLiftsAndRuns at h
    refine augmentFold_invariant geo geocoder (getSkiAreas geo store {})
      store s' ?_ ?_ h
    · intro o ho
      have homem : o ∈ store.filter fun object =>
          true && decide (object.type = MapObjectType.skiArea) && true &&
            (!false || object.isPolygon) := ho
      have hsplit := List.mem_filter.1 homem
      have htype : o.type = MapObjectType.skiArea := by
        have hpred := hsplit.2
        simp only [Bool.and_eq_true, decide_eq_true_eq] at hpred
        exact hpred.1.1.2
      exact hids o hsplit.1 htype
    · intro o ho htype
      have homem : o ∈ store.filter fun object =>
          true && decide (object.type = MapObjectType.skiArea) && true &&
            (!false || object.isPolygon) :=
        List.mem_filter.2 ⟨ho, by simp [htype]⟩
      have hmem : o ∈ getSkiAreas geo store {} := homem
      exact .inr (List.mem_map_of_mem (·._key) hmem)
  have hempty : getSkiAreas geo s'
      { onlyPolygons := true, onlySource := some SourceType.openstreetmap }
        = [] := by
    have hnil : s'.filter (fun object =>
        true && decide (object.type = MapObjectType.skiArea) &&
          decide (object.source = SourceType.openstreetmap) &&
          (!true || object.isPolygon)) = [] := by
      rw [List.filter_eq_nil_iff]
      intro o ho hpred
      simp only [Bool.and_eq_true, decide_eq_true_eq, Bool.not_true,
        Bool.false_or] at hpred
      have hfalse := hpoly o ho hpred.1.1.2
      rw [hfalse] at hpred
      cases hpred.2
    exact hnil
  refine ⟨hpoly, ?_, ?_, hp4⟩
  · unfold removeAmbiguousDuplicateSkiAreas
    rw [hempty]
    rfl
  · unfold assignObjectsToSkiAreas
    have hempty' : getSkiAreas geo s'
        { onlyPolygons := p1Options.onlyInPolygon,
          onlySource := some p1Options.onlySource } = [] := hempty
    rw [hempty']
    rfl



/-- Witness for C9's amended statement at fixture H: the P5 pass really
augments a polygon ski area (flipping `isPolygon` to false), and on its
output P0 and P1 select no ski areas and P4 finds no unassigned run. -/
theorem c9_second_run_polygon_phases_noop_witness :
    (augmentedSkiArea geoF none skiAreaH (getObjects skiAreaH.id storeH)
      (Geometry.point 90)).isPolygon = false ∧
    removeAmbiguousDuplicateSkiAreas geoF storeHAfterP5 =
      .ok storeHAfterP5 ∧
    generateSkiAreasForUnassignedObjects geoF 3 storeHAfterP5 =
      .ok storeHAfterP5 :=
  ⟨(c9_second_run_polygon_phases_noop geoF none noMerger storeH
      storeHAfterP5 (by decide) (by decide)).1
      (augmentedSkiArea geoF none skiAreaH (getObjects skiAreaH.id storeH)
        (Geometry.point 90)) (by decide) (by decide),
   (c9_second_run_polygon_phases_noop geoF none noMerger storeH
      storeHAfterP5 (by decide) (by decide)).2.1,
   (c9_second_run_polygon_phases_noop geoF none noMerger storeH
      storeHAfterP5 (by decide) (by decide)).2.2.2 3 (by decide)⟩

end OSP
